import Mathlib

/-!
Verification of the access-control and ticket-handling logic of the
multi-tenant support-ticketing backend.

The Python handlers work over JSON-like dictionaries.  We embed the
dynamic values as `PyVal`, dictionaries as association lists in insertion
order, and each handler module as a Lean namespace whose definitions
mirror the corresponding Python functions line by line.  DynamoDB tables
are modelled as association lists from primary key to item; the
`ConditionExpression` of each mutating call is modelled explicitly.
Wall-clock timestamps are passed in as an explicit `now` argument.
-/

/-- Dynamic (JSON-like) Python values as they occur in the handlers:
`None`, booleans, strings and lists. -/
inductive PyVal where
  | pnull
  | pbool (b : Bool)
  | pstr (s : String)
  | plist (l : List PyVal)

mutual
/-- Python `==` on the embedded values (values of different types compare
unequal, `None == None` is `True`). -/
def pyEq : PyVal → PyVal → Bool
  | .pnull, .pnull => true
  | .pbool a, .pbool b => a == b
  | .pstr a, .pstr b => a == b
  | .plist a, .plist b => pyEqList a b
  | _, _ => false
def pyEqList : List PyVal → List PyVal → Bool
  | [], [] => true
  | a :: as, b :: bs => pyEq a b && pyEqList as bs
  | _, _ => false
end

/-- Python truthiness of the embedded values (`None`, `False`, `''` and
`[]` are falsy). -/
def truthy : PyVal → Bool
  | .pnull => false
  | .pbool b => b
  | .pstr s => !(s == "")
  | .plist l => !l.isEmpty

/-- ASCII lower-casing of one character, as Python `str.lower` acts on the
ASCII range (the handlers only lower-case ASCII role names). -/
def lowerChar (c : Char) : Char :=
  if 'A' ≤ c && c ≤ 'Z' then Char.ofNat (c.toNat + 32) else c

/-- ASCII upper-casing of one character, as Python `str.upper` acts on the
ASCII range (the handlers only upper-case ASCII status/priority names). -/
def upperChar (c : Char) : Char :=
  if 'a' ≤ c && c ≤ 'z' then Char.ofNat (c.toNat - 32) else c

/-- Python `str.lower`, restricted to per-character ASCII case mapping. -/
def strLower (s : String) : String := ⟨s.data.map lowerChar⟩

/-- Python `str.upper`, restricted to per-character ASCII case mapping. -/
def strUpper (s : String) : String := ⟨s.data.map upperChar⟩

/-- A Python dictionary with string keys, in insertion order. -/
abbrev Item : Type := List (String × PyVal)

/-- First binding of a key in a dictionary, `none` when the key is absent. -/
def dLookup (d : Item) (k : String) : Option PyVal :=
  match d with
  | [] => none
  | (k', v) :: rest => if k' == k then some v else dLookup rest k

/-- Python `dict.get(k)`: the value at `k`, or `None` when absent. -/
def dGet (d : Item) (k : String) : PyVal := (dLookup d k).getD .pnull

/-- Python `dict.get(k, default)`. -/
def dGetD (d : Item) (k : String) (v : PyVal) : PyVal := (dLookup d k).getD v

/-- Python `k in dict`. -/
def dMem (d : Item) (k : String) : Bool := (dLookup d k).isSome

/-- Assignment `d[k] = v`: replace the first binding of `k`, or append. -/
def dSet (d : Item) (k : String) (v : PyVal) : Item :=
  match d with
  | [] => [(k, v)]
  | (k', v') :: rest => if k' == k then (k', v) :: rest else (k', v') :: dSet rest k v

/-- The verified identity claim set attached to a request: a string-to-string
dictionary (`requestContext.authorizer.claims`). -/
abbrev Claims : Type := List (String × String)

/-- First binding of a claim, `none` when absent. -/
def cLookup (c : Claims) (k : String) : Option String :=
  match c with
  | [] => none
  | (k', v) :: rest => if k' == k then some v else cLookup rest k

/-- Python `==` between an `Optional[str]` attribute and an embedded value
(`None == None` is `True`; a string never equals a non-string). -/
def pyEqOptStr (o : Option String) (v : PyVal) : Bool :=
  match o, v with
  | some s, .pstr t => s == t
  | none, .pnull => true
  | _, _ => false

/-- Python `==` between an embedded value and a string. -/
def pyEqStr (v : PyVal) (s : String) : Bool :=
  match v with
  | .pstr t => t == s
  | _ => false

/-- A DynamoDB table: primary-key value to item, first binding wins. -/
abbrev Store : Type := List (String × Item)

/-- `get_item` on a table. -/
def storeLookup (st : Store) (k : String) : Option Item :=
  match st with
  | [] => none
  | (k', v) :: rest => if k' == k then some v else storeLookup rest k

/-- Replace the item at a key (used to model a successful `update_item`). -/
def storeSet (st : Store) (k : String) (it : Item) : Store :=
  match st with
  | [] => [(k, it)]
  | (k', v') :: rest => if k' == k then (k', it) :: rest else (k', v') :: storeSet rest k it

/-- `delete_item` on a table. -/
def storeDelete (st : Store) (k : String) : Store :=
  match st with
  | [] => []
  | (k', v') :: rest => if k' == k then rest else (k', v') :: storeDelete rest k

namespace Auth

/-- `UserContext` from `auth.py`: the authenticated actor.  The stored
`role` is the constructor-normalised (lower-cased) role string. -/
structure UserContext where
  user_id : String
  email : String
  role : String
  org_id : Option String
  given_name : Option String
  family_name : Option String

/-- The `UserContext.__init__` constructor: normalises the role to lower
case (`self.role = role.lower()`). -/
def UserContext.make (user_id email role : String) (org_id given_name family_name : Option String) :
    UserContext :=
  ⟨user_id, email, strLower role, org_id, given_name, family_name⟩

/-- `UserContext.is_platform_admin`. -/
def UserContext.is_platform_admin (u : UserContext) : Bool := u.role == "platform_admin"

/-- `UserContext.is_org_admin`. -/
def UserContext.is_org_admin (u : UserContext) : Bool := u.role == "org_admin"

/-- `UserContext.is_technician`. -/
def UserContext.is_technician (u : UserContext) : Bool := u.role == "technician"

/-- `UserContext.is_customer`. -/
def UserContext.is_customer (u : UserContext) : Bool := u.role == "customer"

/-- `UserContext.is_admin` (legacy): platform or organisation admin. -/
def UserContext.is_admin (u : UserContext) : Bool :=
  u.is_platform_admin || u.is_org_admin

/-- `UserContext.is_agent` (legacy): platform admin, org admin or technician. -/
def UserContext.is_agent (u : UserContext) : Bool :=
  u.is_platform_admin || u.is_org_admin || u.is_technician

/-- `UserContext.can_access_org`. -/
def UserContext.can_access_org (u : UserContext) (org_id : String) : Bool :=
  if u.is_platform_admin then true
  else u.org_id == some org_id

/-- `UserContext.can_manage_org`. -/
def UserContext.can_manage_org (u : UserContext) (org_id : String) : Bool :=
  if u.is_platform_admin then true
  else u.is_org_admin && u.org_id == some org_id

/-- `UserContext.can_access_ticket`: the tenant gate is skipped when the
ticket's `orgId` is falsy (absent, `None` or the empty string), exactly as
the Python `if ticket_org_id and self.org_id != ticket_org_id` does. -/
def UserContext.can_access_ticket (u : UserContext) (ticket : Item) : Bool :=
  let ticket_org_id := dGet ticket "orgId"
  if u.is_platform_admin then true
  else if truthy ticket_org_id && !(pyEqOptStr u.org_id ticket_org_id) then false
  else if u.is_org_admin || u.is_technician then true
  else pyEq (dGet ticket "createdBy") (.pstr u.user_id)

/-- `UserContext.can_update_ticket`. -/
def UserContext.can_update_ticket (u : UserContext) (ticket : Item) : Bool :=
  let ticket_org_id := dGet ticket "orgId"
  if u.is_platform_admin then true
  else if truthy ticket_org_id && !(pyEqOptStr u.org_id ticket_org_id) then false
  else if u.is_org_admin || u.is_technician then true
  else pyEq (dGet ticket "createdBy") (.pstr u.user_id)

/-- `UserContext.can_delete_ticket`. -/
def UserContext.can_delete_ticket (u : UserContext) (ticket : Item) (hard_delete : Bool) : Bool :=
  let ticket_org_id := dGet ticket "orgId"
  if hard_delete then u.is_platform_admin
  else if u.is_platform_admin then true
  else if truthy ticket_org_id && !(pyEqOptStr u.org_id ticket_org_id) then false
  else if u.is_org_admin then true
  else if u.is_technician then true
  else pyEq (dGet ticket "createdBy") (.pstr u.user_id)

/-- `UserContext.can_assign_ticket`. -/
def UserContext.can_assign_ticket (u : UserContext) (ticket : Item) : Bool :=
  let ticket_org_id := dGet ticket "orgId"
  if u.is_platform_admin then true
  else if truthy ticket_org_id && !(pyEqOptStr u.org_id ticket_org_id) then false
  else u.is_org_admin || u.is_technician

/-- `extract_user_from_event`, applied to the claim set found at
`requestContext.authorizer.claims` (an empty dictionary when the event
carries no claims).  With no claims a hard-coded test user is returned;
otherwise every claim defaults as in the source. -/
def extract_user_from_event (claims : Claims) : UserContext :=
  if claims.isEmpty then
    UserContext.make "test-user-123" "test@example.com" "customer" (some "test-org-123")
      (some "Test") (some "User")
  else
    UserContext.make
      ((cLookup claims "sub").getD "unknown")
      ((cLookup claims "email").getD ((cLookup claims "cognito:username").getD "unknown@example.com"))
      ((cLookup claims "custom:role").getD "customer")
      (cLookup claims "custom:orgId")
      (cLookup claims "given_name")
      (cLookup claims "family_name")

end Auth

namespace UpdateTicket

/-- `UPDATABLE_FIELDS` from `update_ticket.py` (note: `title` and
`description` are not in the set). -/
def UPDATABLE_FIELDS : List String :=
  ["status", "priority", "assignedTo", "resolution", "tags", "category"]

/-- `VALID_STATUSES` from `update_ticket.py`. -/
def VALID_STATUSES : List String := ["OPEN", "IN_PROGRESS", "WAITING", "RESOLVED", "CLOSED"]

/-- `VALID_PRIORITIES` from `update_ticket.py`. -/
def VALID_PRIORITIES : List String := ["LOW", "MEDIUM", "HIGH", "CRITICAL"]

/-- `is_authorized_to_update`: raw role string compared against the
`'ADMIN'`/`'AGENT'`/`'CUSTOMER'` vocabulary. -/
def is_authorized_to_update (ticket : Item) (user_id user_role : String) : Bool :=
  if user_role == "ADMIN" || user_role == "AGENT" then true
  else if user_role == "CUSTOMER" then pyEq (dGet ticket "createdBy") (.pstr user_id)
  else false

/-- Outcome of a validator: pass, a validation error message, or an
uncaught Python exception (e.g. `.upper()` on a non-string). -/
inductive VResult where
  | ok
  | err (msg : String)
  | exn

/-- `validate_update_fields`.  The joined field-name lists inside the
error messages are abbreviated (Python renders them from a `set`, whose
iteration order is implementation defined); claims only distinguish
pass / validation error. -/
def validate_update_fields (updates existing : Item) : VResult :=
  if (updates.map Prod.fst).any (fun k => !(UPDATABLE_FIELDS.contains k)) then
    .err "Invalid fields"
  else
    match dLookup updates "status" with
    | some (.pstr s) =>
      if !(VALID_STATUSES.contains (strUpper s)) then .err "Invalid status"
      else if strUpper s == "RESOLVED" && !(truthy (dGet updates "resolution")) then
        .err "Resolution is required when status is RESOLVED"
      else
        match dLookup updates "priority" with
        | some (.pstr p) =>
          if !(VALID_PRIORITIES.contains (strUpper p)) then .err "Invalid priority"
          else
            match dLookup updates "tags" with
            | some (.plist _) => .ok
            | some _ => .err "Tags must be an array"
            | none => .ok
        | some _ => .exn
        | none =>
          match dLookup updates "tags" with
          | some (.plist _) => .ok
          | some _ => .err "Tags must be an array"
          | none => .ok
    | some _ => .exn
    | none =>
      match dLookup updates "priority" with
      | some (.pstr p) =>
        if !(VALID_PRIORITIES.contains (strUpper p)) then .err "Invalid priority"
        else
          match dLookup updates "tags" with
          | some (.plist _) => .ok
          | some _ => .err "Tags must be an array"
          | none => .ok
      | some _ => .exn
      | none =>
        match dLookup updates "tags" with
        | some (.plist _) => .ok
        | some _ => .err "Tags must be an array"
        | none => .ok

/-- Python `value.upper()` on a dynamic value: defined only on strings. -/
def pyUpperVal : PyVal → Option PyVal
  | .pstr s => some (.pstr (strUpper s))
  | _ => none

/-- The user-provided part of `build_update_expression`: each updatable
field in payload order, with `status`/`priority` upper-cased; `none`
models the `AttributeError` raised by `.upper()` on a non-string. -/
def buildFields : List (String × PyVal) → Option (List (String × PyVal))
  | [] => some []
  | (f, v) :: rest =>
    if UPDATABLE_FIELDS.contains f then
      match (if f == "status" || f == "priority" then pyUpperVal v else some v) with
      | some v2 => (buildFields rest).map (fun l => (f, v2) :: l)
      | none => none
    else buildFields rest

/-- `build_update_expression`, abstracted to the list of `SET` assignments
it produces (field name, new value), in order: user fields, then
`updatedAt`/`updatedBy`, then `resolvedAt` when resolving. -/
def build_update_expression (updates : Item) (user_id now : String) :
    Option (List (String × PyVal)) :=
  match buildFields updates with
  | none => none
  | some parts =>
    let parts := parts ++ [("updatedAt", .pstr now), ("updatedBy", .pstr user_id)]
    match dLookup updates "status" with
    | some (.pstr s) =>
      if strUpper s == "RESOLVED" then some (parts ++ [("resolvedAt", .pstr now)])
      else some parts
    | some _ => none
    | none => some parts

/-- Apply a list of `SET` assignments to a stored item, left to right. -/
def applyAssigns (it : Item) (l : List (String × PyVal)) : Item :=
  List.foldl (fun acc kv => dSet acc kv.1 kv.2) it l

/-- `extract_user_id` from `update_ticket.py`. -/
def extract_user_id (claims : Claims) : String := (cLookup claims "sub").getD "test-user-123"

/-- `extract_user_role` from `update_ticket.py`: the raw `custom:role`
claim, defaulting to `'CUSTOMER'`. -/
def extract_user_role (claims : Claims) : String :=
  (cLookup claims "custom:role").getD "CUSTOMER"

/-- The `PATCH /tickets/{id}` handler.  Inputs: the path parameter, the
parsed request body (`none` models a JSON decode error), the claim set,
the tickets table and the current timestamp.  Output: HTTP status code
and the table afterwards.  The `update_item` call carries only the
condition `attribute_exists(ticketId)`, exactly as in the source; a 409
is returned only when that condition fails. -/
def handler (ticketId : Option String) (bodyOpt : Option Item) (claims : Claims)
    (store : Store) (now : String) : Nat × Store :=
  match ticketId with
  | none => (400, store)
  | some tid =>
    if tid == "" then (400, store)
    else
      match bodyOpt with
      | none => (400, store)
      | some body =>
        if body.isEmpty then (400, store)
        else
          let user_id := extract_user_id claims
          let user_role := extract_user_role claims
          match storeLookup store tid with
          | none => (404, store)
          | some existing =>
            if !is_authorized_to_update existing user_id user_role then (403, store)
            else
              match validate_update_fields body existing with
              | .err _ => (400, store)
              | .exn => (500, store)
              | .ok =>
                match build_update_expression body user_id now with
                | none => (500, store)
                | some assigns =>
                  if (storeLookup store tid).isSome then
                    (200, storeSet store tid (applyAssigns existing assigns))
                  else (409, store)

end UpdateTicket

namespace GetTicket

/-- `is_authorized` from `get_ticket.py`. -/
def is_authorized (ticket : Item) (user_id user_role : String) : Bool :=
  if user_role == "ADMIN" || user_role == "AGENT" then true
  else if user_role == "CUSTOMER" then pyEq (dGet ticket "createdBy") (.pstr user_id)
  else false

/-- `extract_user_id` from `get_ticket.py`. -/
def extract_user_id (claims : Claims) : String := (cLookup claims "sub").getD "test-user-123"

/-- `extract_user_role` from `get_ticket.py`. -/
def extract_user_role (claims : Claims) : String :=
  (cLookup claims "custom:role").getD "CUSTOMER"

/-- The `GET /tickets/{id}` handler: status code and the returned ticket. -/
def handler (ticketId : Option String) (claims : Claims) (store : Store) :
    Nat × Option Item :=
  match ticketId with
  | none => (400, none)
  | some tid =>
    if tid == "" then (400, none)
    else
      match storeLookup store tid with
      | none => (404, none)
      | some ticket =>
        if !is_authorized ticket (extract_user_id claims) (extract_user_role claims) then
          (403, none)
        else (200, some ticket)

end GetTicket

namespace DeleteTicket

/-- `is_authorized_to_delete` from `delete_ticket.py`. -/
def is_authorized_to_delete (ticket : Item) (user_id user_role : String)
    (hard_delete : Bool) : Bool :=
  if hard_delete && !(user_role == "ADMIN") then false
  else if user_role == "ADMIN" || user_role == "AGENT" then true
  else if user_role == "CUSTOMER" then pyEq (dGet ticket "createdBy") (.pstr user_id)
  else false

/-- `extract_user_id` from `delete_ticket.py`. -/
def extract_user_id (claims : Claims) : String := (cLookup claims "sub").getD "test-user-123"

/-- `extract_user_role` from `delete_ticket.py`. -/
def extract_user_role (claims : Claims) : String :=
  (cLookup claims "custom:role").getD "CUSTOMER"

/-- The `DELETE /tickets/{id}` handler.  `hardParam` is the raw `hard`
query parameter.  Soft delete sets `status` to `CLOSED`; hard delete
removes the row. -/
def handler (ticketId : Option String) (hardParam : Option String) (claims : Claims)
    (store : Store) (now : String) : Nat × Store :=
  match ticketId with
  | none => (400, store)
  | some tid =>
    if tid == "" then (400, store)
    else
      let hard := strLower (hardParam.getD "false") == "true"
      let user_id := extract_user_id claims
      let user_role := extract_user_role claims
      match storeLookup store tid with
      | none => (404, store)
      | some existing =>
        if !is_authorized_to_delete existing user_id user_role hard then (403, store)
        else if hard then
          if (storeLookup store tid).isSome then (204, storeDelete store tid)
          else (404, store)
        else
          if (storeLookup store tid).isSome then
            (204, storeSet store tid
              (applyClose existing now user_id))
          else (404, store)
where
  /-- The three `SET` assignments of the soft-delete `update_item`. -/
  applyClose (it : Item) (now user_id : String) : Item :=
    dSet (dSet (dSet it "status" (.pstr "CLOSED")) "updatedAt" (.pstr now))
      "updatedBy" (.pstr user_id)

end DeleteTicket

namespace ListTickets

/-- `filter_tickets_by_role` from `list_tickets.py`: unknown roles get an
empty list. -/
def filter_tickets_by_role (tickets : List Item) (user_id user_role : String) :
    List Item :=
  if user_role == "ADMIN" || user_role == "AGENT" then tickets
  else if user_role == "CUSTOMER" then
    tickets.filter (fun t => pyEq (dGet t "createdBy") (.pstr user_id))
  else []

/-- `extract_user_role` from `list_tickets.py`. -/
def extract_user_role (claims : Claims) : String :=
  (cLookup claims "custom:role").getD "CUSTOMER"

end ListTickets

namespace CreateComment

/-- Python `str.strip()` (whitespace from both ends). -/
def pyStrip (s : String) : String :=
  ⟨(s.data.dropWhile Char.isWhitespace).reverse.dropWhile Char.isWhitespace |>.reverse⟩

/-- The commenting role used by `create_comment.py`: the `role` attribute
of the caller's users-table record, with `'CUSTOMER'` as default when the
record or the attribute is missing.  The raw stored value is used
unchanged — in particular a lower-case role synced from the identity
claims stays lower case. -/
def comment_user_role (user_record : Option Item) : PyVal :=
  match user_record with
  | some rec => dGetD rec "role" (.pstr "CUSTOMER")
  | none => .pstr "CUSTOMER"

/-- The `isInternal` value that `create_comment.py` stores: the request
value (default `False`), coerced to `False` exactly when it is truthy and
the users-table role equals the string `'CUSTOMER'`. -/
def stored_is_internal (user_record : Option Item) (body : Item) : PyVal :=
  let is_internal := dGetD body "isInternal" (.pbool false)
  if truthy is_internal && pyEqStr (comment_user_role user_record) "CUSTOMER" then
    .pbool false
  else is_internal

/-- The access predicate of `create_comment.py`: ticket owner, assignee,
or a users-table role of `'TECH'`/`'ADMIN'`. -/
def has_comment_access (user : Auth.UserContext) (ticket : Item)
    (user_record : Option Item) : Bool :=
  let user_role := comment_user_role user_record
  let is_owner := pyEq (dGet ticket "createdBy") (.pstr user.user_id)
  let is_assigned := pyEq (dGet ticket "assignedTo") (.pstr user.user_id)
  let is_tech_or_admin := pyEqStr user_role "TECH" || pyEqStr user_role "ADMIN"
  is_owner || is_assigned || is_tech_or_admin

/-- The `POST /tickets/{id}/comments` handler, after the ticket and the
caller's users-table record have been fetched (the bucket environment
variable is a parameter).  Output: HTTP status and the stored comment. -/
def handler (user : Auth.UserContext) (ticket : Item) (user_record : Option Item)
    (body : Item) (bucket commentId now : String) : Nat × Option Item :=
  if !has_comment_access user ticket user_record then (403, none)
  else
    match dGetD body "content" (.pstr "") with
    | .pstr rawContent =>
      let content := pyStrip rawContent
      if content == "" then (400, none)
      else
        match dGetD body "attachments" (.plist []) with
        | .plist attachments =>
          if attachments.length > 5 then (400, none)
          else if attachments.any (fun a =>
              match a with
              | .pstr url => bucket != "" && (url.splitOn bucket).length == 1
              | _ => true) then (400, none)
          else
            (201, some
              [("ticketId", dGet ticket "ticketId"),
               ("commentId", .pstr commentId),
               ("content", .pstr content),
               ("authorId", .pstr user.user_id),
               ("authorEmail", .pstr user.email),
               ("authorRole", comment_user_role user_record),
               ("attachments", .plist attachments),
               ("isInternal", stored_is_internal user_record body),
               ("createdAt", .pstr now)])
        | _ => (500, none)
    | _ => (500, none)

end CreateComment

namespace CreateTicket

/-- The users-table record that `sync_user_to_table` in `create_ticket.py`
writes for a first-time user: the `role` attribute is the caller's
constructor-normalised (lower-cased) role string. -/
def sync_new_user_record (user : Auth.UserContext) (org_id now : String) : Item :=
  [("userId", .pstr user.user_id),
   ("email", .pstr user.email),
   ("firstName", .pstr (user.given_name.getD "")),
   ("lastName", .pstr (user.family_name.getD "")),
   ("role", .pstr user.role),
   ("orgId", .pstr org_id),
   ("createdAt", .pstr now),
   ("updatedAt", .pstr now)]

end CreateTicket

namespace UpdateUserRole

/-- `body.get(k, '').lower()` on a dynamic value: `none` models the
`AttributeError` raised when the value is not a string. -/
def asLowerStr : PyVal → Option String
  | .pstr s => some (strLower s)
  | _ => none

/-- The valid role vocabulary of `update_user_role.py`. -/
def valid_roles : List String := ["platform_admin", "org_admin", "technician", "customer"]

/-- `count_platform_admins`: scan of the users table for records whose
`role` equals `'platform_admin'`. -/
def count_platform_admins (store : Store) : Nat :=
  (store.filter (fun kv => pyEq (dGet kv.2 "role") (.pstr "platform_admin"))).length

/-- The `PUT /users/{userId}/role` handler over the users table.  The
checks appear in source order; note that there is no check comparing the
target user id with the acting user's own id other than the explicit
self-exemption inside the org-admin-protection clause. -/
def handler (user : Auth.UserContext) (target_user_id : Option String) (body : Item)
    (store : Store) (now : String) : Nat × Store :=
  if !user.is_admin then (403, store)
  else
    match target_user_id with
    | none => (400, store)
    | some tid =>
      if tid == "" then (400, store)
      else
        match storeLookup store tid with
        | none => (404, store)
        | some target_user =>
          match asLowerStr (dGetD body "role" (.pstr "")) with
          | none => (500, store)
          | some new_role =>
            let new_org_id := dGetD body "orgId" .pnull
            if !(new_role == "") && !(valid_roles.contains new_role) then (400, store)
            else
              let target_org_id := dGet target_user "orgId"
              if !user.is_platform_admin && !(pyEqOptStr user.org_id target_org_id) then
                (403, store)
              else if !user.is_platform_admin && new_role == "platform_admin" then
                (403, store)
              else
                match asLowerStr (dGetD target_user "role" (.pstr "")) with
                | none => (500, store)
                | some target_role =>
                  if !user.is_platform_admin && target_role == "org_admin"
                      && !(tid == user.user_id) then (403, store)
                  else if !user.is_platform_admin && truthy new_org_id
                      && !(pyEqOptStr user.org_id new_org_id) then (403, store)
                  else if target_role == "platform_admin" && !(new_role == "platform_admin")
                      && count_platform_admins store ≤ 1 then (400, store)
                  else
                    let roleParts : List (String × PyVal) :=
                      if !(new_role == "") then [("role", .pstr new_role)] else []
                    let orgParts : List (String × PyVal) :=
                      if !(pyEq new_org_id .pnull) then
                        [("orgId", if truthy new_org_id then new_org_id else .pnull)]
                      else []
                    if (roleParts ++ orgParts).isEmpty then (400, store)
                    else
                      let assigns := (roleParts ++ orgParts)
                        ++ [("updatedAt", .pstr now), ("updatedBy", .pstr user.user_id)]
                      (200, storeSet store tid (UpdateTicket.applyAssigns target_user assigns))

end UpdateUserRole

namespace Cursor

mutual
/-- A DynamoDB pagination key as `json.dumps`/`json.loads` see it: strings
and nested maps of strings (the shapes the round-trip claim quantifies
over). -/
inductive JVal where
  | jstr (s : String)
  | jobj (o : JObj)
/-- The entries of a JSON object/dictionary, in insertion order; in the
real domain the keys are pairwise distinct. -/
inductive JObj where
  | nil
  | cons (k : String) (v : JVal) (rest : JObj)
end

mutual
/-- Node count of a value (used to bound the parser fuel). -/
def sizeV : JVal → Nat
  | .jstr _ => 1
  | .jobj o => sizeO o + 1
/-- Node count of an object's entries. -/
def sizeO : JObj → Nat
  | .nil => 1
  | .cons _ v rest => sizeV v + sizeO rest + 1
end

/-- The hexadecimal digit characters `%x` produces (lower case). -/
def hexDig (d : Nat) : Char :=
  if d < 10 then Char.ofNat (48 + d) else Char.ofNat (87 + d)

/-- The four digits of `'\\u%04x' % n`. -/
def hex4 (n : Nat) : List Char :=
  [hexDig (n / 4096 % 16), hexDig (n / 256 % 16), hexDig (n / 16 % 16), hexDig (n % 16)]

/-- `json.dumps` escaping of one character with `ensure_ascii=True`
(the default): the seven short escapes, printable ASCII verbatim, and
`\uXXXX` (with a surrogate pair above U+FFFF) for everything else. -/
def escChar (c : Char) : List Char :=
  if c = '\\' then ['\\', '\\']
  else if c = '"' then ['\\', '"']
  else if c = Char.ofNat 8 then ['\\', 'b']
  else if c = Char.ofNat 12 then ['\\', 'f']
  else if c = '\n' then ['\\', 'n']
  else if c = Char.ofNat 13 then ['\\', 'r']
  else if c = '\t' then ['\\', 't']
  else if 32 ≤ c.toNat && c.toNat ≤ 126 then [c]
  else if c.toNat < 65536 then '\\' :: 'u' :: hex4 c.toNat
  else
    let m := c.toNat - 65536
    ('\\' :: 'u' :: hex4 (55296 + m / 1024)) ++ ('\\' :: 'u' :: hex4 (56320 + m % 1024))

/-- Escape a whole character list. -/
def escList : List Char → List Char
  | [] => []
  | c :: cs => escChar c ++ escList cs

/-- The characters of a JSON string literal: `'"' + escaped + '"'`. -/
def jstrChars (s : String) : List Char := '"' :: (escList s.data ++ ['"'])

mutual
/-- The characters `json.dumps` produces for a value, with the default
separators `', '` and `': '`. -/
def dumpsVal : JVal → List Char
  | .jstr s => jstrChars s
  | .jobj .nil => ['{', '}']
  | .jobj (.cons k v rest) =>
    '{' :: (jstrChars k ++ (':' :: ' ' :: (dumpsVal v ++ (dumpsTail rest ++ ['}']))))
/-- The remaining `', key: value'` groups of an object body. -/
def dumpsTail : JObj → List Char
  | .nil => []
  | .cons k v rest =>
    ',' :: ' ' :: (jstrChars k ++ (':' :: ' ' :: (dumpsVal v ++ dumpsTail rest)))
end

/-- The base64 alphabet character of a 6-bit group, as in RFC 4648 /
`base64.b64encode`. -/
def b64Char (n : Nat) : Char :=
  if n < 26 then Char.ofNat (65 + n)
  else if n < 52 then Char.ofNat (97 + (n - 26))
  else if n < 62 then Char.ofNat (48 + (n - 52))
  else if n = 62 then '+'
  else '/'

/-- The 6-bit value of a base64 alphabet character. -/
def b64Val (c : Char) : Option Nat :=
  if 'A' ≤ c && c ≤ 'Z' then some (c.toNat - 65)
  else if 'a' ≤ c && c ≤ 'z' then some (c.toNat - 71)
  else if '0' ≤ c && c ≤ '9' then some (c.toNat + 4)
  else if c = '+' then some 62
  else if c = '/' then some 63
  else none

/-- `base64.b64encode` on a byte sequence. -/
def b64encodeBytes : List Nat → List Char
  | b1 :: b2 :: b3 :: rest =>
    b64Char (b1 / 4) :: b64Char (b1 % 4 * 16 + b2 / 16) ::
      b64Char (b2 % 16 * 4 + b3 / 64) :: b64Char (b3 % 64) :: b64encodeBytes rest
  | [b1, b2] => [b64Char (b1 / 4), b64Char (b1 % 4 * 16 + b2 / 16), b64Char (b2 % 16 * 4), '=']
  | [b1] => [b64Char (b1 / 4), b64Char (b1 % 4 * 16), '=', '=']
  | [] => []

/-- `base64.b64decode` on a well-formed base64 text (four-character
groups, `=` padding only in the final group). -/
def b64decodeBytes : List Char → Option (List Nat)
  | [] => some []
  | c1 :: c2 :: c3 :: c4 :: rest =>
    match b64Val c1, b64Val c2 with
    | some s1, some s2 =>
      if c3 = '=' && c4 = '=' && rest.isEmpty then
        some [s1 * 4 + s2 / 16]
      else if c4 = '=' && rest.isEmpty then
        match b64Val c3 with
        | some s3 => some [s1 * 4 + s2 / 16, s2 % 16 * 16 + s3 / 4]
        | none => none
      else
        match b64Val c3, b64Val c4, b64decodeBytes rest with
        | some s3, some s4, some bs =>
          some ((s1 * 4 + s2 / 16) :: (s2 % 16 * 16 + s3 / 4) :: (s3 % 4 * 64 + s4) :: bs)
        | _, _, _ => none
    | _, _ => none
  | _ => none

/-- UTF-8 encoding of one character (`str.encode`). -/
def utf8Char (c : Char) : List Nat :=
  let n := c.toNat
  if n < 128 then [n]
  else if n < 2048 then [192 + n / 64, 128 + n % 64]
  else if n < 65536 then [224 + n / 4096, 128 + n / 64 % 64, 128 + n % 64]
  else [240 + n / 262144, 128 + n / 4096 % 64, 128 + n / 64 % 64, 128 + n % 64]

/-- UTF-8 encoding of a character list. -/
def utf8Encode : List Char → List Nat
  | [] => []
  | c :: cs => utf8Char c ++ utf8Encode cs

mutual
/-- Strict UTF-8 decoding (`bytes.decode`), yielding `none` on any
malformed, overlong or surrogate sequence. -/
def utf8Decode : List Nat → Option (List Char)
  | [] => some []
  | b :: rest =>
    if b < 128 then (utf8Decode rest).map (fun cs => Char.ofNat b :: cs)
    else utf8DecodeMulti b rest
/-- Decoding of a multi-byte UTF-8 sequence with lead byte `b`. -/
def utf8DecodeMulti (b : Nat) : List Nat → Option (List Char)
  | [] => none
  | b2 :: rest2 =>
    if 194 ≤ b && b < 224 then
      if 128 ≤ b2 && b2 < 192 then
        (utf8Decode rest2).map (fun cs => Char.ofNat ((b - 192) * 64 + (b2 - 128)) :: cs)
      else none
    else if 224 ≤ b && b < 240 then
      match rest2 with
      | b3 :: rest3 =>
        if 128 ≤ b2 && b2 < 192 && (128 ≤ b3 && b3 < 192) then
          let n := (b - 224) * 4096 + (b2 - 128) * 64 + (b3 - 128)
          if 2048 ≤ n && !(55296 ≤ n && n ≤ 57343) then
            (utf8Decode rest3).map (fun cs => Char.ofNat n :: cs)
          else none
        else none
      | [] => none
    else if 240 ≤ b && b < 245 then
      match rest2 with
      | b3 :: b4 :: rest4 =>
        if 128 ≤ b2 && b2 < 192 && (128 ≤ b3 && b3 < 192) && (128 ≤ b4 && b4 < 192) then
          let n := (b - 240) * 262144 + (b2 - 128) * 4096 + (b3 - 128) * 64 + (b4 - 128)
          if 65536 ≤ n && n < 1114112 then
            (utf8Decode rest4).map (fun cs => Char.ofNat n :: cs)
          else none
        else none
      | _ => none
    else none
end

end Cursor

namespace Cursor

/-- JSON insignificant whitespace skipping (`json.decoder` skips space,
tab, newline and carriage return between tokens). -/
def skipWs : List Char → List Char
  | [] => []
  | c :: cs =>
    if c = ' ' || c = '\t' || c = '\n' || c = Char.ofNat 13 then skipWs cs
    else c :: cs

/-- The numeric value of one hexadecimal digit (either case), as
`int(s, 16)` reads the digits of a `\\uXXXX` escape. -/
def hexVal (c : Char) : Option Nat :=
  if '0' ≤ c && c ≤ '9' then some (c.toNat - 48)
  else if 'a' ≤ c && c ≤ 'f' then some (c.toNat - 87)
  else if 'A' ≤ c && c ≤ 'F' then some (c.toNat - 55)
  else none

/-- The numeric value of a four-digit hexadecimal escape body. -/
def hex4Val (c1 c2 c3 c4 : Char) : Option Nat :=
  match hexVal c1, hexVal c2, hexVal c3, hexVal c4 with
  | some d1, some d2, some d3, some d4 => some (d1 * 4096 + d2 * 256 + d3 * 16 + d4)
  | _, _, _, _ => none

mutual
/-- The body of a JSON string literal after the opening quote, as
`json.decoder.py_scanstring` reads it in strict mode: raw control
characters are rejected, the seven short escapes and `\\uXXXX` (with
surrogate-pair combination) are decoded.  A lone surrogate escape is not
representable as a scalar value and yields `none`. -/
def parseStrBody (acc : List Char) : List Char → Option (String × List Char)
  | [] => none
  | c :: rest =>
    if c = '"' then some (⟨acc.reverse⟩, rest)
    else if c = '\\' then parseEsc acc rest
    else if c.toNat < 32 then none
    else parseStrBody (c :: acc) rest
/-- The continuation after a backslash inside a string literal. -/
def parseEsc (acc : List Char) : List Char → Option (String × List Char)
  | 'u' :: c1 :: c2 :: c3 :: c4 :: rest2 =>
    (match hex4Val c1 c2 c3 c4 with
    | none => none
    | some n =>
      if 55296 ≤ n && n ≤ 56319 then parseLowSurrogate acc n rest2
      else if 56320 ≤ n && n ≤ 57343 then none
      else parseStrBody (Char.ofNat n :: acc) rest2)
  | e :: rest2 =>
    if e = 'u' then none
    else if e = '"' then parseStrBody ('"' :: acc) rest2
    else if e = '\\' then parseStrBody ('\\' :: acc) rest2
    else if e = '/' then parseStrBody ('/' :: acc) rest2
    else if e = 'b' then parseStrBody (Char.ofNat 8 :: acc) rest2
    else if e = 'f' then parseStrBody (Char.ofNat 12 :: acc) rest2
    else if e = 'n' then parseStrBody ('\n' :: acc) rest2
    else if e = 'r' then parseStrBody (Char.ofNat 13 :: acc) rest2
    else if e = 't' then parseStrBody ('\t' :: acc) rest2
    else none
  | [] => none
/-- The continuation after a high-surrogate `\uXXXX` escape: the paired
low surrogate must follow. -/
def parseLowSurrogate (acc : List Char) (n : Nat) : List Char → Option (String × List Char)
  | '\\' :: 'u' :: d1 :: d2 :: d3 :: d4 :: rest3 =>
    (match hex4Val d1 d2 d3 d4 with
    | none => none
    | some n2 =>
      if 56320 ≤ n2 && n2 ≤ 57343 then
        parseStrBody (Char.ofNat (65536 + (n - 55296) * 1024 + (n2 - 56320)) :: acc) rest3
      else none)
  | _ => none
end

/-- Continuation after a member's value has been parsed: a comma continues
the member list, a closing brace ends the object. -/
def parseMemberVal (pm : List Char → Option (JObj × List Char)) (k : String) :
    Option (JVal × List Char) → Option (JObj × List Char)
  | none => none
  | some (v, rest3) =>
    match skipWs rest3 with
    | ',' :: rest4 => (pm (skipWs rest4)).map (fun p => (JObj.cons k v p.1, p.2))
    | '}' :: rest4 => some (.cons k v .nil, rest4)
    | _ => none

/-- Continuation after an object key has been scanned: expect a colon,
then hand the value parser's result on (`json.decoder.JSONObject`). -/
def parseMemberKey (pv : List Char → Option (JVal × List Char))
    (pm : List Char → Option (JObj × List Char)) :
    Option (String × List Char) → Option (JObj × List Char)
  | none => none
  | some (k, rest1) =>
    match skipWs rest1 with
    | ':' :: rest2 => parseMemberVal pm k (pv rest2)
    | _ => none

mutual
/-- Recursive-descent parser for the string/object fragment of
`json.loads`, fuelled to make the nesting recursion structural.  Values
outside the fragment (numbers, `true`, `null`, arrays) make the model
return `none`; they cannot occur in a dumped pagination key. -/
def parseVal : Nat → List Char → Option (JVal × List Char)
  | 0, _ => none
  | fuel + 1, cs =>
    match skipWs cs with
    | '"' :: rest => (parseStrBody [] rest).map (fun p => (.jstr p.1, p.2))
    | '{' :: rest =>
      match skipWs rest with
      | '}' :: rest2 => some (.jobj .nil, rest2)
      | rest2 => (parseMembers fuel rest2).map (fun p => (.jobj p.1, p.2))
    | _ => none
/-- Parse the non-empty member list of an object, consuming the closing
brace. -/
def parseMembers : Nat → List Char → Option (JObj × List Char)
  | 0, _ => none
  | fuel + 1, cs =>
    match cs with
    | '"' :: rest =>
      parseMemberKey (parseVal fuel) (parseMembers fuel) (parseStrBody [] rest)
    | _ => none
end

/-- `encode_cursor` from `list_tickets.py`: `json.dumps` the key, UTF-8
encode, base64 encode.  (`default=str` in the source only fires for
values `json` cannot serialise, which the claim's string/map domain never
contains.) -/
def encode_cursor (k : JVal) : String :=
  ⟨b64encodeBytes (utf8Encode (dumpsVal k))⟩

/-- Final stage of `decode_cursor`: `json.loads` rejects trailing
non-whitespace after the parsed value. -/
def decodeParsed : Option (JVal × List Char) → Option JVal
  | some (v, rest) => if (skipWs rest).isEmpty then some v else none
  | none => none

/-- Stage of `decode_cursor` after UTF-8 decoding: run the parser with
fuel beyond the input length. -/
def decodeFromChars : Option (List Char) → Option JVal
  | none => none
  | some chars => decodeParsed (parseVal (chars.length + 1) chars)

/-- Stage of `decode_cursor` after base64 decoding: UTF-8 decode the
bytes. -/
def decodeFromBytes : Option (List Nat) → Option JVal
  | none => none
  | some bytes => decodeFromChars (utf8Decode bytes)

/-- `decode_cursor` from `list_tickets.py`: base64 decode, UTF-8 decode,
`json.loads`; `none` models the exceptions any stage can raise. -/
def decode_cursor (c : String) : Option JVal :=
  decodeFromBytes (b64decodeBytes c.data)

end Cursor

namespace Auth

/-- The tenant gate of the spec sentence for `can_access_ticket`: "the
ticket's org id is set and differs from actor.org_id".  "Set" is a
non-empty value (an absent, null or empty org id is not set). -/
def OrgGateBlocks (u : UserContext) (t : Item) : Prop :=
  truthy (dGet t "orgId") = true ∧ pyEqOptStr u.org_id (dGet t "orgId") = false

/-- `can_access_ticket` as the spec sentence states it, as a predicate:
platform_admin, or (the tenant gate does not block and the actor is an
org admin, a technician, or the ticket's creator). -/
def CanAccessTicketSpec (u : UserContext) (t : Item) : Prop :=
  u.role = "platform_admin" ∨
    (¬ OrgGateBlocks u t ∧
      (u.role = "org_admin" ∨ u.role = "technician" ∨
        pyEq (dGet t "createdBy") (.pstr u.user_id) = true))

end Auth

section HelperLemmas

/-- A key bound in a dictionary occurs among its keys. -/
theorem dLookup_mem_keys {d : Item} {k : String} {v : PyVal}
    (h : dLookup d k = some v) : k ∈ d.map Prod.fst := by
  induction d with
  | nil => simp [dLookup] at h
  | cons kv rest ih =>
    obtain ⟨k', v'⟩ := kv
    by_cases hk : k' == k
    · exact List.mem_cons.mpr (Or.inl (beq_iff_eq.mp hk).symm)
    · simp only [dLookup, hk, Bool.false_eq_true, if_false] at h
      exact List.mem_cons_of_mem _ (ih h)

/-- A successful lookup comes from an actual binding. -/
theorem dLookup_mem_pair {d : Item} {k : String} {v : PyVal}
    (h : dLookup d k = some v) : (k, v) ∈ d := by
  induction d with
  | nil => simp [dLookup] at h
  | cons kv rest ih =>
    obtain ⟨k', v'⟩ := kv
    by_cases hk : k' == k
    · simp only [dLookup, hk, if_true] at h
      cases h
      exact List.mem_cons.mpr (Or.inl (by rw [beq_iff_eq.mp hk]))
    · simp only [dLookup, hk, Bool.false_eq_true, if_false] at h
      exact List.mem_cons_of_mem _ (ih h)

/-- Reading back the key just set. -/
theorem dLookup_dSet_self (d : Item) (k : String) (v : PyVal) :
    dLookup (dSet d k v) k = some v := by
  induction d with
  | nil => simp [dSet, dLookup]
  | cons kv rest ih =>
    obtain ⟨k', v'⟩ := kv
    by_cases hk : k' == k
    · simp [dSet, dLookup, hk]
    · simp [dSet, dLookup, hk, ih]

/-- Setting one key leaves the others unchanged. -/
theorem dLookup_dSet_ne (d : Item) (k k2 : String) (v : PyVal) (h : k ≠ k2) :
    dLookup (dSet d k v) k2 = dLookup d k2 := by
  induction d with
  | nil => simp [dSet, dLookup, h]
  | cons kv rest ih =>
    obtain ⟨k', v'⟩ := kv
    by_cases hk : k' == k
    · have : ¬(k' == k2) = true := fun hc =>
        h ((beq_iff_eq.mp hk) ▸ beq_iff_eq.mp hc)
      simp [dSet, dLookup, hk, this]
    · by_cases hk2 : k' == k2 <;> simp [dSet, dLookup, hk, hk2, ih]

/-- Reading back the table row just replaced. -/
theorem storeLookup_storeSet_self (st : Store) (k : String) (it : Item) :
    storeLookup (storeSet st k it) k = some it := by
  induction st with
  | nil => simp [storeSet, storeLookup]
  | cons kv rest ih =>
    obtain ⟨k', v'⟩ := kv
    by_cases hk : k' == k
    · simp [storeSet, storeLookup, hk]
    · simp [storeSet, storeLookup, hk, ih]

end HelperLemmas

/-- Claim C1: `can_access_ticket` implements exactly the spec's decision
order — platform_admin always; deny on a set-and-different org id; allow
org_admin/technician; otherwise allow iff the actor created the ticket —
and in particular customer u2, in the same org as ticket T1 created by
customer u1, is denied. -/
theorem c1_can_access_ticket_matches_spec :
    (∀ (u : Auth.UserContext) (t : Item),
      u.can_access_ticket t = true ↔ Auth.CanAccessTicketSpec u t) ∧
    (Auth.UserContext.make "u2" "u2@example.com" "customer" (some "org-1") none none).can_access_ticket
      [("ticketId", .pstr "T1"), ("orgId", .pstr "org-1"), ("createdBy", .pstr "u1")] = false := by
  constructor
  · intro u t
    simp only [Auth.UserContext.can_access_ticket, Auth.CanAccessTicketSpec, Auth.OrgGateBlocks,
      Auth.UserContext.is_platform_admin, Auth.UserContext.is_org_admin,
      Auth.UserContext.is_technician]
    by_cases h1 : u.role = "platform_admin" <;>
      by_cases h2 : truthy (dGet t "orgId") = true <;>
      by_cases h3 : pyEqOptStr u.org_id (dGet t "orgId") = true <;>
      by_cases h4 : u.role = "org_admin" <;>
      by_cases h5 : u.role = "technician" <;>
      simp_all
  · decide

/-- Claim C2, counterexample: an org admin of org-1 and a ticket whose
org id field is absent — the actor's org id differs from the ticket's
(nonexistent) org id and the actor is no platform admin, yet
`can_access_ticket` returns true, because the tenant gate is skipped for
a falsy ticket org id. -/
theorem c2_cross_org_counterexample :
    (Auth.UserContext.make "a1" "a@example.com" "org_admin" (some "org-1") none none).role
        ≠ "platform_admin" ∧
    pyEqOptStr (Auth.UserContext.make "a1" "a@example.com" "org_admin" (some "org-1") none none).org_id
      (dGet [("ticketId", PyVal.pstr "T2"), ("createdBy", PyVal.pstr "u9")] "orgId") = false ∧
    (Auth.UserContext.make "a1" "a@example.com" "org_admin" (some "org-1") none none).can_access_ticket
      [("ticketId", PyVal.pstr "T2"), ("createdBy", PyVal.pstr "u9")] = true := by
  refine ⟨by decide, rfl, by decide⟩

/-- Claim C2 as amended: the four predicates return false for a
non-platform-admin actor whose org id differs from the ticket's org id
provided the ticket's org id is set (truthy); when it is absent or empty
the tenant gate is skipped and the role/ownership rules decide instead. -/
theorem c2_cross_org_denial_amended
    (u : Auth.UserContext) (t : Item)
    (h1 : u.role ≠ "platform_admin")
    (h2 : truthy (dGet t "orgId") = true)
    (h3 : pyEqOptStr u.org_id (dGet t "orgId") = false) :
    u.can_access_ticket t = false ∧ u.can_update_ticket t = false ∧
      u.can_assign_ticket t = false ∧ u.can_delete_ticket t false = false := by
  simp only [Auth.UserContext.can_access_ticket, Auth.UserContext.can_update_ticket,
    Auth.UserContext.can_assign_ticket, Auth.UserContext.can_delete_ticket,
    Auth.UserContext.is_platform_admin, h2, h3, beq_iff_eq, h1]
  simp

/-- Witness for `c2_cross_org_denial_amended` at a technician of org-1
and a ticket of org-2. -/
theorem c2_cross_org_denial_witness :
    (Auth.UserContext.make "t9" "t@example.com" "technician" (some "org-1") none none).can_access_ticket
        [("orgId", PyVal.pstr "org-2"), ("createdBy", PyVal.pstr "t9")] = false ∧
    (Auth.UserContext.make "t9" "t@example.com" "technician" (some "org-1") none none).can_update_ticket
        [("orgId", PyVal.pstr "org-2"), ("createdBy", PyVal.pstr "t9")] = false ∧
    (Auth.UserContext.make "t9" "t@example.com" "technician" (some "org-1") none none).can_assign_ticket
        [("orgId", PyVal.pstr "org-2"), ("createdBy", PyVal.pstr "t9")] = false ∧
    (Auth.UserContext.make "t9" "t@example.com" "technician" (some "org-1") none none).can_delete_ticket
        [("orgId", PyVal.pstr "org-2"), ("createdBy", PyVal.pstr "t9")] false = false :=
  c2_cross_org_denial_amended
    (Auth.UserContext.make "t9" "t@example.com" "technician" (some "org-1") none none)
    [("orgId", PyVal.pstr "org-2"), ("createdBy", PyVal.pstr "t9")]
    (by decide) rfl rfl

/-- Claim C4, counterexample: a claim set without a subject id is not
treated as anonymous — with `custom:role: org_admin` and a matching org,
`can_access_ticket` returns true for a ticket created by someone else. -/
theorem c4_missing_sub_counterexample :
    cLookup [("custom:role", "org_admin"), ("custom:orgId", "org-1")] "sub" = none ∧
    (Auth.extract_user_from_event [("custom:role", "org_admin"), ("custom:orgId", "org-1")]).can_access_ticket
      [("orgId", PyVal.pstr "org-1"), ("createdBy", PyVal.pstr "someone-else")] = true := by
  exact ⟨rfl, by decide⟩

/-- Claim C4 as amended: when the subject id claim is absent the caller
is not denied — a non-empty claim set yields a user with id `'unknown'`
and the claimed role/org (so access checks can still pass, as the
counterexample shows), and an empty claim set yields the hard-coded test
customer of org `test-org-123`. -/
theorem c4_missing_sub_amended :
    (∀ claims : Claims, claims ≠ [] → cLookup claims "sub" = none →
      (Auth.extract_user_from_event claims).user_id = "unknown") ∧
    Auth.extract_user_from_event [] =
      Auth.UserContext.make "test-user-123" "test@example.com" "customer"
        (some "test-org-123") (some "Test") (some "User") := by
  constructor
  · intro claims hne hsub
    simp [Auth.extract_user_from_event, List.isEmpty_iff, hne, hsub, Auth.UserContext.make]
  · rfl

/-- Witness for `c4_missing_sub_amended` at a one-claim set. -/
theorem c4_missing_sub_witness :
    (Auth.extract_user_from_event [("custom:role", "org_admin")]).user_id = "unknown" :=
  c4_missing_sub_amended.1 [("custom:role", "org_admin")] (List.cons_ne_nil _ _) rfl

/-- Claim C3, counterexample: a customer who created ticket t-1 sends a
payload changing the privileged field `status`; the handler accepts it
(200) and stores the new status, instead of refusing. -/
theorem c3_customer_sets_status_counterexample :
    UpdateTicket.handler (some "t-1") (some [("status", PyVal.pstr "IN_PROGRESS")])
      [("sub", "u1"), ("custom:role", "CUSTOMER")]
      [("t-1", [("ticketId", PyVal.pstr "t-1"), ("createdBy", PyVal.pstr "u1"),
        ("status", PyVal.pstr "OPEN"), ("updatedAt", PyVal.pstr "2026-01-01")])]
      "2026-02-02" =
    (200, [("t-1", [("ticketId", PyVal.pstr "t-1"), ("createdBy", PyVal.pstr "u1"),
      ("status", PyVal.pstr "IN_PROGRESS"), ("updatedAt", PyVal.pstr "2026-02-02"),
      ("updatedBy", PyVal.pstr "u1")])]) := rfl

/-- Claim C3 as amended: the updatable fields are exactly `status`,
`priority`, `assignedTo`, `resolution`, `tags`, `category`; `title` and
`description` are rejected as invalid for every caller; and there is no
role-based field restriction — a customer is authorized exactly when
they created the ticket, regardless of which fields the payload touches,
and a payload changing `status` (to a valid non-RESOLVED value) or
`assignedTo` passes validation. -/
theorem c3_update_field_scoping_amended :
    (∀ (body existing : Item) (v : PyVal), dLookup body "title" = some v →
      UpdateTicket.validate_update_fields body existing = .err "Invalid fields") ∧
    (∀ (body existing : Item) (v : PyVal), dLookup body "description" = some v →
      UpdateTicket.validate_update_fields body existing = .err "Invalid fields") ∧
    (∀ (ticket : Item) (uid : String),
      UpdateTicket.is_authorized_to_update ticket uid "CUSTOMER" =
        pyEq (dGet ticket "createdBy") (.pstr uid)) ∧
    (∀ (existing : Item) (s : String),
      UpdateTicket.VALID_STATUSES.contains (strUpper s) = true → strUpper s ≠ "RESOLVED" →
      UpdateTicket.validate_update_fields [("status", .pstr s)] existing = .ok) ∧
    (∀ (existing : Item) (v : PyVal),
      UpdateTicket.validate_update_fields [("assignedTo", v)] existing = .ok) := by
  refine ⟨?_, ?_, ?_, ?_, ?_⟩
  · intro body existing v h
    have hmem := dLookup_mem_keys h
    simp only [UpdateTicket.validate_update_fields]
    split
    · rfl
    · rename_i hc
      exact absurd (List.any_eq_true.mpr ⟨"title", hmem, by decide⟩) hc
  · intro body existing v h
    have hmem := dLookup_mem_keys h
    simp only [UpdateTicket.validate_update_fields]
    split
    · rfl
    · rename_i hc
      exact absurd (List.any_eq_true.mpr ⟨"description", hmem, by decide⟩) hc
  · intro ticket uid
    rfl
  · intro existing s hcon hne
    have h1 : (([("status", PyVal.pstr s)] : Item).map Prod.fst).any
        (fun k => !(UpdateTicket.UPDATABLE_FIELDS.contains k)) = false := rfl
    have h2 : dLookup [("status", PyVal.pstr s)] "status" = some (.pstr s) := rfl
    have h3 : (strUpper s == "RESOLVED") = false := beq_eq_false_iff_ne.mpr hne
    simp only [UpdateTicket.validate_update_fields, h1, Bool.false_eq_true, if_false, h2,
      hcon, Bool.not_true, h3, Bool.false_and]
    rfl
  · intro existing v
    rfl

/-- Witness for `c3_update_field_scoping_amended` at concrete payloads. -/
theorem c3_update_field_scoping_witness :
    UpdateTicket.validate_update_fields [("title", PyVal.pstr "x")] [] = .err "Invalid fields" ∧
    UpdateTicket.validate_update_fields [("description", PyVal.pstr "x")] [] = .err "Invalid fields" ∧
    UpdateTicket.is_authorized_to_update [("createdBy", PyVal.pstr "u1")] "u1" "CUSTOMER" =
      pyEq (dGet [("createdBy", PyVal.pstr "u1")] "createdBy") (.pstr "u1") ∧
    UpdateTicket.validate_update_fields [("status", PyVal.pstr "CLOSED")] [] = .ok ∧
    UpdateTicket.validate_update_fields [("assignedTo", PyVal.pstr "tech-7")] [] = .ok :=
  ⟨c3_update_field_scoping_amended.1 [("title", PyVal.pstr "x")] [] (PyVal.pstr "x") rfl,
   c3_update_field_scoping_amended.2.1 [("description", PyVal.pstr "x")] [] (PyVal.pstr "x") rfl,
   c3_update_field_scoping_amended.2.2.1 [("createdBy", PyVal.pstr "u1")] "u1",
   c3_update_field_scoping_amended.2.2.2.1 [] "CLOSED" (by decide) (by decide),
   c3_update_field_scoping_amended.2.2.2.2 [] (PyVal.pstr "tech-7")⟩

/-- Claim C5: the `update_item` condition is only
`attribute_exists(ticketId)` — whatever `updatedAt` the record currently
holds (`storedAt`), and whatever different value the caller last read
(`lastRead`), the update succeeds with 200 and overwrites the record
(the stored `updatedAt` becomes the write time), instead of failing with
409; and a body that even carries `updatedAt` is rejected as an invalid
field, so the request cannot transport the caller's snapshot at all.
This contradicts the module's own docstring ("Implements optimistic
locking … using updatedAt as version"). -/
theorem c5_no_optimistic_locking (storedAt lastRead : String)
    (hneq : storedAt ≠ lastRead) :
    (UpdateTicket.handler (some "t-1") (some [("status", PyVal.pstr "IN_PROGRESS")])
      [("sub", "agent-9"), ("custom:role", "AGENT")]
      [("t-1", [("ticketId", PyVal.pstr "t-1"), ("createdBy", PyVal.pstr "u1"),
        ("status", PyVal.pstr "OPEN"), ("updatedAt", PyVal.pstr storedAt)])]
      "2026-02-02T00:00:00Z").1 = 200 ∧
    (UpdateTicket.handler (some "t-1") (some [("status", PyVal.pstr "IN_PROGRESS")])
      [("sub", "agent-9"), ("custom:role", "AGENT")]
      [("t-1", [("ticketId", PyVal.pstr "t-1"), ("createdBy", PyVal.pstr "u1"),
        ("status", PyVal.pstr "OPEN"), ("updatedAt", PyVal.pstr storedAt)])]
      "2026-02-02T00:00:00Z").1 ≠ 409 ∧
    dGet ((storeLookup (UpdateTicket.handler (some "t-1")
      (some [("status", PyVal.pstr "IN_PROGRESS")])
      [("sub", "agent-9"), ("custom:role", "AGENT")]
      [("t-1", [("ticketId", PyVal.pstr "t-1"), ("createdBy", PyVal.pstr "u1"),
        ("status", PyVal.pstr "OPEN"), ("updatedAt", PyVal.pstr storedAt)])]
      "2026-02-02T00:00:00Z").2 "t-1").getD []) "updatedAt" =
        PyVal.pstr "2026-02-02T00:00:00Z" ∧
    UpdateTicket.validate_update_fields [("updatedAt", PyVal.pstr lastRead)] [] =
      .err "Invalid fields" := by
  refine ⟨rfl, ?_, rfl, rfl⟩
  show (200 : Nat) ≠ 409
  decide

/-- Witness for `c5_no_optimistic_locking` at a concrete stale read. -/
theorem c5_no_optimistic_locking_witness :
    (UpdateTicket.handler (some "t-1") (some [("status", PyVal.pstr "IN_PROGRESS")])
      [("sub", "agent-9"), ("custom:role", "AGENT")]
      [("t-1", [("ticketId", PyVal.pstr "t-1"), ("createdBy", PyVal.pstr "u1"),
        ("status", PyVal.pstr "OPEN"), ("updatedAt", PyVal.pstr "2026-01-01T00:00:00Z")])]
      "2026-02-02T00:00:00Z").1 = 200 ∧
    (UpdateTicket.handler (some "t-1") (some [("status", PyVal.pstr "IN_PROGRESS")])
      [("sub", "agent-9"), ("custom:role", "AGENT")]
      [("t-1", [("ticketId", PyVal.pstr "t-1"), ("createdBy", PyVal.pstr "u1"),
        ("status", PyVal.pstr "OPEN"), ("updatedAt", PyVal.pstr "2026-01-01T00:00:00Z")])]
      "2026-02-02T00:00:00Z").1 ≠ 409 ∧
    dGet ((storeLookup (UpdateTicket.handler (some "t-1")
      (some [("status", PyVal.pstr "IN_PROGRESS")])
      [("sub", "agent-9"), ("custom:role", "AGENT")]
      [("t-1", [("ticketId", PyVal.pstr "t-1"), ("createdBy", PyVal.pstr "u1"),
        ("status", PyVal.pstr "OPEN"), ("updatedAt", PyVal.pstr "2026-01-01T00:00:00Z")])]
      "2026-02-02T00:00:00Z").2 "t-1").getD []) "updatedAt" =
        PyVal.pstr "2026-02-02T00:00:00Z" ∧
    UpdateTicket.validate_update_fields [("updatedAt", PyVal.pstr "2025-12-31T00:00:00Z")] [] =
      .err "Invalid fields" :=
  c5_no_optimistic_locking "2026-01-01T00:00:00Z" "2025-12-31T00:00:00Z" (by decide)

/-- Claim C6, counterexample: a platform admin (with a second platform
admin present, so the last-admin guard does not fire) changes their own
role to customer — the handler answers 200 and the acting user's role is
changed, so there is no self-change prohibition. -/
theorem c6_self_role_change_counterexample :
    (UpdateUserRole.handler
      (Auth.UserContext.make "admin-1" "a@example.com" "platform_admin" none none none)
      (some "admin-1") [("role", PyVal.pstr "customer")]
      [("admin-1", [("userId", PyVal.pstr "admin-1"), ("role", PyVal.pstr "platform_admin")]),
       ("admin-2", [("userId", PyVal.pstr "admin-2"), ("role", PyVal.pstr "platform_admin")])]
      "2026-03-03").1 = 200 ∧
    dGet ((storeLookup (UpdateUserRole.handler
      (Auth.UserContext.make "admin-1" "a@example.com" "platform_admin" none none none)
      (some "admin-1") [("role", PyVal.pstr "customer")]
      [("admin-1", [("userId", PyVal.pstr "admin-1"), ("role", PyVal.pstr "platform_admin")]),
       ("admin-2", [("userId", PyVal.pstr "admin-2"), ("role", PyVal.pstr "platform_admin")])]
      "2026-03-03").2 "admin-1").getD []) "role" = PyVal.pstr "customer" :=
  ⟨rfl, rfl⟩

/-- Claim C6 as amended: the handler has no self-change prohibition.  In
particular an org admin targeting their own user id is accepted for any
valid non-platform_admin role: the org-admin-protection clause exempts
the actor themself (`target_user_id != user.user_id`), and the request
succeeds with 200, changing the actor's own stored role. -/
theorem c6_self_role_change_amended
    (uid email org newRole now : String) (rec : Item) (store : Store)
    (huid : uid ≠ "")
    (hlk : storeLookup store uid = some rec)
    (horg : dLookup rec "orgId" = some (.pstr org))
    (hrole : dLookup rec "role" = some (.pstr "org_admin"))
    (hvalid : UpdateUserRole.valid_roles.contains (strLower newRole) = true)
    (hnp : strLower newRole ≠ "platform_admin") :
    (UpdateUserRole.handler ⟨uid, email, "org_admin", some org, none, none⟩
      (some uid) [("role", PyVal.pstr newRole)] store now).1 = 200 ∧
    dLookup ((storeLookup (UpdateUserRole.handler ⟨uid, email, "org_admin", some org, none, none⟩
        (some uid) [("role", PyVal.pstr newRole)] store now).2 uid).getD []) "role" =
      some (PyVal.pstr (strLower newRole)) := by
  have hne : strLower newRole ≠ "" := by
    intro hc
    rw [hc] at hvalid
    exact absurd hvalid (by decide)
  have hbeq : (uid == "") = false := beq_eq_false_iff_ne.mpr huid
  have hself : (uid == uid) = true := beq_self_eq_true uid
  have hnew : (strLower newRole == "") = false := beq_eq_false_iff_ne.mpr hne
  have hnp2 : (strLower newRole == "platform_admin") = false := beq_eq_false_iff_ne.mpr hnp
  have hget : dGet rec "orgId" = PyVal.pstr org := by simp [dGet, horg]
  have hgetrole : dGetD rec "role" (PyVal.pstr "") = PyVal.pstr "org_admin" := by
    simp [dGetD, hrole]
  simp only [UpdateUserRole.handler, Auth.UserContext.is_admin,
    Auth.UserContext.is_platform_admin, Auth.UserContext.is_org_admin,
    hlk, hbeq, hself, hget, hgetrole]
  simp only [show (("org_admin" : String) == "platform_admin") = false from rfl,
    show (("org_admin" : String) == "org_admin") = true from rfl,
    Bool.false_or, Bool.not_false, Bool.true_and, Bool.false_eq_true, if_false]
  simp only [UpdateUserRole.asLowerStr, dGetD, dLookup, show (("role" : String) == "role") = true from rfl,
    if_true, Option.getD_some, hnew, hvalid, Bool.not_true, Bool.and_false, Bool.false_eq_true,
    if_false, hnp2]
  simp [pyEqOptStr, truthy, pyEq, show strLower "org_admin" = "org_admin" from rfl,
    storeLookup_storeSet_self, UpdateTicket.applyAssigns,
    dLookup_dSet_ne _ "updatedBy" "role" _ (by decide),
    dLookup_dSet_ne _ "updatedAt" "role" _ (by decide), dLookup_dSet_self]

/-- Witness for `c6_self_role_change_amended`: an org admin demotes
themself to technician. -/
theorem c6_self_role_change_witness :
    (UpdateUserRole.handler ⟨"oa-1", "o@example.com", "org_admin", some "org-1", none, none⟩
      (some "oa-1") [("role", PyVal.pstr "technician")]
      [("oa-1", [("userId", PyVal.pstr "oa-1"), ("role", PyVal.pstr "org_admin"),
        ("orgId", PyVal.pstr "org-1")])] "2026-03-03").1 = 200 ∧
    dLookup ((storeLookup (UpdateUserRole.handler
        ⟨"oa-1", "o@example.com", "org_admin", some "org-1", none, none⟩
        (some "oa-1") [("role", PyVal.pstr "technician")]
        [("oa-1", [("userId", PyVal.pstr "oa-1"), ("role", PyVal.pstr "org_admin"),
          ("orgId", PyVal.pstr "org-1")])] "2026-03-03").2 "oa-1").getD []) "role" =
      some (PyVal.pstr (strLower "technician")) :=
  c6_self_role_change_amended "oa-1" "o@example.com" "org-1" "technician" "2026-03-03"
    [("userId", PyVal.pstr "oa-1"), ("role", PyVal.pstr "org_admin"),
      ("orgId", PyVal.pstr "org-1")]
    [("oa-1", [("userId", PyVal.pstr "oa-1"), ("role", PyVal.pstr "org_admin"),
      ("orgId", PyVal.pstr "org-1")])]
    (by decide) rfl rfl rfl (by decide) (by decide)

/-- Claim C7: a payload that sets `status` to RESOLVED (in any letter
case) with a falsy (absent/empty) `resolution` in the same payload is
rejected by validation for every stored ticket; the handler then leaves
the table unchanged and never answers 200, for every caller role; and
whenever `build_update_expression` accepts a payload resolving a ticket,
the produced assignments set `resolvedAt` to the write time. -/
theorem c7_resolved_requires_resolution
    (body : Item) (s : String)
    (hst : dLookup body "status" = some (.pstr s))
    (hres : strUpper s = "RESOLVED")
    (hfalsy : truthy (dGet body "resolution") = false) :
    (∀ existing : Item, ∃ msg,
      UpdateTicket.validate_update_fields body existing = .err msg) ∧
    (∀ (tid : String) (claims : Claims) (store : Store) (now : String),
      (UpdateTicket.handler (some tid) (some body) claims store now).2 = store ∧
      (UpdateTicket.handler (some tid) (some body) claims store now).1 ≠ 200) ∧
    (∀ (body2 : Item) (s2 uid now2 : String) (l : List (String × PyVal)),
      dLookup body2 "status" = some (.pstr s2) → strUpper s2 = "RESOLVED" →
      UpdateTicket.build_update_expression body2 uid now2 = some l →
      ("resolvedAt", PyVal.pstr now2) ∈ l) := by
  have h1 : UpdateTicket.VALID_STATUSES.contains (strUpper s) = true := by
    rw [hres]; decide
  have h2 : (strUpper s == "RESOLVED") = true := by rw [hres]; exact beq_self_eq_true _
  have hval : ∀ existing : Item, ∃ msg,
      UpdateTicket.validate_update_fields body existing = .err msg := by
    intro existing
    by_cases hinv : (body.map Prod.fst).any
        (fun k => !(UpdateTicket.UPDATABLE_FIELDS.contains k)) = true
    · refine ⟨"Invalid fields", ?_⟩
      simp only [UpdateTicket.validate_update_fields]
      rw [if_pos hinv]
    · have hinv' : (body.map Prod.fst).any
          (fun k => !(UpdateTicket.UPDATABLE_FIELDS.contains k)) = false := by
        simpa using hinv
      have h1m : strUpper s ∈ UpdateTicket.VALID_STATUSES := by rw [hres]; decide
      refine ⟨"Resolution is required when status is RESOLVED", ?_⟩
      simp [UpdateTicket.validate_update_fields, hinv', hst, h1m, h2, hfalsy]
      intro x v hxv
      have hx : x ∈ body.map Prod.fst := List.mem_map.mpr ⟨(x, v), hxv, rfl⟩
      have hpx := (List.any_eq_false.mp hinv') x hx
      simpa using hpx
  refine ⟨hval, ?_, ?_⟩
  · intro tid claims store now
    have hbody : body.isEmpty = false := by
      cases body with
      | nil => simp [dLookup] at hst
      | cons a l => rfl
    by_cases htid : (tid == "") = true
    · constructor <;> simp [UpdateTicket.handler, htid]
    · have htid' : (tid == "") = false := by simpa using htid
      rcases hlk : storeLookup store tid with _ | ex
      · constructor <;> simp [UpdateTicket.handler, htid', hbody, hlk]
      · obtain ⟨msg, hmsg⟩ := hval ex
        by_cases hauth : UpdateTicket.is_authorized_to_update ex
            (UpdateTicket.extract_user_id claims) (UpdateTicket.extract_user_role claims) = true
        · constructor <;> simp [UpdateTicket.handler, htid', hbody, hlk, hauth, hmsg]
        · have hauth' : UpdateTicket.is_authorized_to_update ex
              (UpdateTicket.extract_user_id claims)
              (UpdateTicket.extract_user_role claims) = false := by simpa using hauth
          constructor <;> simp [UpdateTicket.handler, htid', hbody, hlk, hauth']
  · intro body2 s2 uid now2 l hst2 hres2 hbuild
    rcases hbf : UpdateTicket.buildFields body2 with _ | parts
    · rw [UpdateTicket.build_update_expression, hbf] at hbuild
      exact absurd hbuild (by simp)
    · rw [UpdateTicket.build_update_expression, hbf] at hbuild
      simp only [hst2] at hbuild
      rw [if_pos (by rw [hres2]; decide)] at hbuild
      cases hbuild
      simp

/-- Witness for `c7_resolved_requires_resolution` at the payload
`{"status": "RESOLVED"}` with no resolution. -/
theorem c7_resolved_requires_resolution_witness :
    (∀ existing : Item, ∃ msg,
      UpdateTicket.validate_update_fields [("status", PyVal.pstr "RESOLVED")] existing =
        .err msg) ∧
    (∀ (tid : String) (claims : Claims) (store : Store) (now : String),
      (UpdateTicket.handler (some tid) (some [("status", PyVal.pstr "RESOLVED")])
        claims store now).2 = store ∧
      (UpdateTicket.handler (some tid) (some [("status", PyVal.pstr "RESOLVED")])
        claims store now).1 ≠ 200) ∧
    (∀ (body2 : Item) (s2 uid now2 : String) (l : List (String × PyVal)),
      dLookup body2 "status" = some (.pstr s2) → strUpper s2 = "RESOLVED" →
      UpdateTicket.build_update_expression body2 uid now2 = some l →
      ("resolvedAt", PyVal.pstr now2) ∈ l) :=
  c7_resolved_requires_resolution [("status", PyVal.pstr "RESOLVED")] "RESOLVED" rfl rfl rfl

/-- Claim C8, counterexample: a customer whose identity claims carry role
`CUSTOMER` is normalised to the lower-case role `customer`; the
users-table record synced for them stores that lower-case role; and a
comment request by them with `isInternal: true` is stored with
`isInternal` still true (the handler only coerces the exact string
`'CUSTOMER'`), at the handler level with a 201 response. -/
theorem c8_is_internal_counterexample :
    (Auth.extract_user_from_event
      [("sub", "cust-1"), ("custom:role", "CUSTOMER"), ("custom:orgId", "org-1")]).role
        = "customer" ∧
    dGet (CreateTicket.sync_new_user_record
      (Auth.extract_user_from_event
        [("sub", "cust-1"), ("custom:role", "CUSTOMER"), ("custom:orgId", "org-1")])
      "org-1" "2026-01-05") "role" = PyVal.pstr "customer" ∧
    (CreateComment.handler
      (Auth.extract_user_from_event
        [("sub", "cust-1"), ("custom:role", "CUSTOMER"), ("custom:orgId", "org-1")])
      [("ticketId", PyVal.pstr "t-1"), ("createdBy", PyVal.pstr "cust-1")]
      (some (CreateTicket.sync_new_user_record
        (Auth.extract_user_from_event
          [("sub", "cust-1"), ("custom:role", "CUSTOMER"), ("custom:orgId", "org-1")])
        "org-1" "2026-01-05"))
      [("content", PyVal.pstr "hello"), ("isInternal", PyVal.pbool true)]
      "" "c-1" "2026-01-06").1 = 201 ∧
    dGet (((CreateComment.handler
      (Auth.extract_user_from_event
        [("sub", "cust-1"), ("custom:role", "CUSTOMER"), ("custom:orgId", "org-1")])
      [("ticketId", PyVal.pstr "t-1"), ("createdBy", PyVal.pstr "cust-1")]
      (some (CreateTicket.sync_new_user_record
        (Auth.extract_user_from_event
          [("sub", "cust-1"), ("custom:role", "CUSTOMER"), ("custom:orgId", "org-1")])
        "org-1" "2026-01-05"))
      [("content", PyVal.pstr "hello"), ("isInternal", PyVal.pbool true)]
      "" "c-1" "2026-01-06").2).getD []) "isInternal" = PyVal.pbool true :=
  ⟨rfl, rfl, rfl, rfl⟩

/-- Claim C8 as amended: the coercion of `isInternal` keys on the exact
users-table role string `'CUSTOMER'` (also the default when no record
exists); any other stored role value — in particular the lower-case
`customer` that `sync_user_to_table` writes, or `TECH`/`ADMIN` — is not
coerced, and the requested value is stored unchanged. -/
theorem c8_is_internal_coercion_amended :
    (∀ (rec : Item) (body : Item),
      dLookup rec "role" = some (PyVal.pstr "CUSTOMER") →
      truthy (dGetD body "isInternal" (.pbool false)) = true →
      CreateComment.stored_is_internal (some rec) body = .pbool false) ∧
    (∀ body : Item,
      truthy (dGetD body "isInternal" (.pbool false)) = true →
      CreateComment.stored_is_internal none body = .pbool false) ∧
    (∀ (rec : Item) (body : Item) (r : String),
      dLookup rec "role" = some (PyVal.pstr r) → r ≠ "CUSTOMER" →
      CreateComment.stored_is_internal (some rec) body =
        dGetD body "isInternal" (.pbool false)) := by
  refine ⟨?_, ?_, ?_⟩
  · intro rec body hrole htr
    simp only [dGetD] at htr
    simp [CreateComment.stored_is_internal, CreateComment.comment_user_role,
      dGetD, hrole, htr, pyEqStr]
  · intro body htr
    simp only [dGetD] at htr
    simp [CreateComment.stored_is_internal, CreateComment.comment_user_role,
      dGetD, htr, pyEqStr]
  · intro rec body r hrole hne
    simp [CreateComment.stored_is_internal, CreateComment.comment_user_role,
      dGetD, hrole, pyEqStr, hne]

/-- Witness for `c8_is_internal_coercion_amended` at concrete records. -/
theorem c8_is_internal_coercion_witness :
    CreateComment.stored_is_internal (some [("role", PyVal.pstr "CUSTOMER")])
      [("isInternal", PyVal.pbool true)] = .pbool false ∧
    CreateComment.stored_is_internal none [("isInternal", PyVal.pbool true)] = .pbool false ∧
    CreateComment.stored_is_internal (some [("role", PyVal.pstr "customer")])
      [("isInternal", PyVal.pbool true)] =
      dGetD [("isInternal", PyVal.pbool true)] "isInternal" (.pbool false) :=
  ⟨c8_is_internal_coercion_amended.1 [("role", PyVal.pstr "CUSTOMER")]
      [("isInternal", PyVal.pbool true)] rfl rfl,
   c8_is_internal_coercion_amended.2.1 [("isInternal", PyVal.pbool true)] rfl,
   c8_is_internal_coercion_amended.2.2 [("role", PyVal.pstr "customer")]
      [("isInternal", PyVal.pbool true)] "customer" rfl (by decide)⟩

/-- Claim C10: the per-handler authorization compares the raw
`custom:role` claim (defaulting to `'CUSTOMER'` when absent)
case-sensitively against `'ADMIN'`/`'AGENT'`/`'CUSTOMER'`; every other
role string — including the lower-case `platform_admin`, `org_admin`,
`technician`, `customer` vocabulary — makes the get/update/delete
authorization predicates false (even for the ticket's creator, for any
ticket), makes the list filter return the empty list, and makes the
get/update/delete handlers answer 403. -/
theorem c10_raw_role_vocabulary (role : String)
    (h1 : role ≠ "ADMIN") (h2 : role ≠ "AGENT") (h3 : role ≠ "CUSTOMER") :
    (∀ (ticket : Item) (uid : String), GetTicket.is_authorized ticket uid role = false) ∧
    (∀ (ticket : Item) (uid : String),
      UpdateTicket.is_authorized_to_update ticket uid role = false) ∧
    (∀ (ticket : Item) (uid : String) (hard : Bool),
      DeleteTicket.is_authorized_to_delete ticket uid role hard = false) ∧
    (∀ (tickets : List Item) (uid : String),
      ListTickets.filter_tickets_by_role tickets uid role = []) ∧
    (∀ claims : Claims, cLookup claims "custom:role" = none →
      UpdateTicket.extract_user_role claims = "CUSTOMER" ∧
      GetTicket.extract_user_role claims = "CUSTOMER" ∧
      DeleteTicket.extract_user_role claims = "CUSTOMER" ∧
      ListTickets.extract_user_role claims = "CUSTOMER") ∧
    (∀ (tid : String) (ticket : Item) (claims : Claims) (store : Store),
      tid ≠ "" → storeLookup store tid = some ticket →
      cLookup claims "custom:role" = some role →
      (GetTicket.handler (some tid) claims store).1 = 403) ∧
    (∀ (tid : String) (ticket : Item) (claims : Claims) (store : Store)
        (body : Item) (now : String),
      tid ≠ "" → storeLookup store tid = some ticket →
      cLookup claims "custom:role" = some role → body.isEmpty = false →
      (UpdateTicket.handler (some tid) (some body) claims store now).1 = 403) ∧
    (∀ (tid : String) (ticket : Item) (claims : Claims) (store : Store)
        (hardP : Option String) (now : String),
      tid ≠ "" → storeLookup store tid = some ticket →
      cLookup claims "custom:role" = some role →
      (DeleteTicket.handler (some tid) hardP claims store now).1 = 403) := by
  have e1 : (role == "ADMIN") = false := beq_eq_false_iff_ne.mpr h1
  have e2 : (role == "AGENT") = false := beq_eq_false_iff_ne.mpr h2
  have e3 : (role == "CUSTOMER") = false := beq_eq_false_iff_ne.mpr h3
  have hget : ∀ (ticket : Item) (uid : String),
      GetTicket.is_authorized ticket uid role = false := by
    intro ticket uid
    simp [GetTicket.is_authorized, e1, e2, e3]
  have hupd : ∀ (ticket : Item) (uid : String),
      UpdateTicket.is_authorized_to_update ticket uid role = false := by
    intro ticket uid
    simp [UpdateTicket.is_authorized_to_update, e1, e2, e3]
  have hdel : ∀ (ticket : Item) (uid : String) (hard : Bool),
      DeleteTicket.is_authorized_to_delete ticket uid role hard = false := by
    intro ticket uid hard
    cases hard <;> simp [DeleteTicket.is_authorized_to_delete, e1, e2, e3]
  refine ⟨hget, hupd, hdel, ?_, ?_, ?_, ?_, ?_⟩
  · intro tickets uid
    simp [ListTickets.filter_tickets_by_role, e1, e2, e3]
  · intro claims hcl
    refine ⟨?_, ?_, ?_, ?_⟩ <;>
      simp [UpdateTicket.extract_user_role, GetTicket.extract_user_role,
        DeleteTicket.extract_user_role, ListTickets.extract_user_role, hcl]
  · intro tid ticket claims store htid hlk hcl
    have htid' : (tid == "") = false := beq_eq_false_iff_ne.mpr htid
    have hrole : GetTicket.extract_user_role claims = role := by
      simp [GetTicket.extract_user_role, hcl]
    simp [GetTicket.handler, htid', hlk, hrole, hget]
  · intro tid ticket claims store body now htid hlk hcl hbody
    have htid' : (tid == "") = false := beq_eq_false_iff_ne.mpr htid
    have hrole : UpdateTicket.extract_user_role claims = role := by
      simp [UpdateTicket.extract_user_role, hcl]
    simp [UpdateTicket.handler, htid', hbody, hlk, hrole, hupd]
  · intro tid ticket claims store hardP now htid hlk hcl
    have htid' : (tid == "") = false := beq_eq_false_iff_ne.mpr htid
    have hrole : DeleteTicket.extract_user_role claims = role := by
      simp [DeleteTicket.extract_user_role, hcl]
    simp [DeleteTicket.handler, htid', hlk, hrole, hdel]

/-- Witness for `c10_raw_role_vocabulary` at the documented lower-case
role `customer`. -/
theorem c10_raw_role_vocabulary_witness :
    GetTicket.is_authorized [("createdBy", PyVal.pstr "u1")] "u1" "customer" = false ∧
    UpdateTicket.is_authorized_to_update [("createdBy", PyVal.pstr "u1")] "u1" "customer"
      = false ∧
    DeleteTicket.is_authorized_to_delete [("createdBy", PyVal.pstr "u1")] "u1" "customer"
      false = false ∧
    ListTickets.filter_tickets_by_role [[("createdBy", PyVal.pstr "u1")]] "u1" "customer"
      = [] ∧
    (GetTicket.handler (some "t-1") [("sub", "u1"), ("custom:role", "customer")]
      [("t-1", [("createdBy", PyVal.pstr "u1")])]).1 = 403 :=
  ⟨(c10_raw_role_vocabulary "customer" (by decide) (by decide) (by decide)).1
      [("createdBy", PyVal.pstr "u1")] "u1",
   (c10_raw_role_vocabulary "customer" (by decide) (by decide) (by decide)).2.1
      [("createdBy", PyVal.pstr "u1")] "u1",
   (c10_raw_role_vocabulary "customer" (by decide) (by decide) (by decide)).2.2.1
      [("createdBy", PyVal.pstr "u1")] "u1" false,
   (c10_raw_role_vocabulary "customer" (by decide) (by decide) (by decide)).2.2.2.1
      [[("createdBy", PyVal.pstr "u1")]] "u1",
   (c10_raw_role_vocabulary "customer" (by decide) (by decide) (by decide)).2.2.2.2.2.1
      "t-1" [("createdBy", PyVal.pstr "u1")] [("sub", "u1"), ("custom:role", "customer")]
      [("t-1", [("createdBy", PyVal.pstr "u1")])] (by decide) rfl rfl⟩

namespace Cursor

/-- `Char.ofNat` is a left inverse of `Char.toNat` below the surrogate
range. -/
theorem char_ofNat_toNat_small {n : Nat} (h : n < 55296) : (Char.ofNat n).toNat = n := by
  rw [Char.ofNat, dif_pos (Or.inl h)]
  simp [Char.ofNatAux, Char.toNat, UInt32.toNat, UInt32.ofNatTruncate]

/-- `Char.ofNat` is a left inverse of `Char.toNat` above the surrogate
range. -/
theorem char_ofNat_toNat_big {n : Nat} (h1 : 57343 < n) (h2 : n < 1114112) :
    (Char.ofNat n).toNat = n := by
  rw [Char.ofNat, dif_pos (Or.inr ⟨h1, h2⟩)]
  simp [Char.ofNatAux, Char.toNat, UInt32.toNat, UInt32.ofNatTruncate]

/-- Every character's scalar value avoids the surrogate range. -/
theorem char_toNat_valid (c : Char) :
    c.toNat < 55296 ∨ (57343 < c.toNat ∧ c.toNat < 1114112) := by
  have h := c.valid
  simp only [UInt32.isValidChar, Nat.isValidChar] at h
  exact h

/-- The base64 alphabet decodes to the encoded 6-bit value. -/
theorem b64Val_b64Char : ∀ n < 64, b64Val (b64Char n) = some n := by decide

/-- The base64 alphabet never produces the padding character. -/
theorem b64Char_ne_pad : ∀ n < 64, b64Char n ≠ '=' := by decide

/-- `b64decodeBytes` is a left inverse of `b64encodeBytes` on byte
sequences. -/
theorem b64_roundtrip : ∀ bs : List Nat, (∀ b ∈ bs, b < 256) →
    b64decodeBytes (b64encodeBytes bs) = some bs
  | [], _ => rfl
  | [b1], h => by
    have hb1 : b1 < 256 := h b1 (by simp)
    have e1 := b64Val_b64Char (b1 / 4) (by omega)
    have e2 := b64Val_b64Char (b1 % 4 * 16) (by omega)
    have p1 := b64Char_ne_pad (b1 / 4) (by omega)
    have p2 := b64Char_ne_pad (b1 % 4 * 16) (by omega)
    simp only [b64encodeBytes, b64decodeBytes, e1, e2]
    rw [if_pos]
    · congr 1
      congr 1
      omega
    · simp
  | [b1, b2], h => by
    have hb1 : b1 < 256 := h b1 (by simp)
    have hb2 : b2 < 256 := h b2 (by simp)
    have e1 := b64Val_b64Char (b1 / 4) (by omega)
    have e2 := b64Val_b64Char (b1 % 4 * 16 + b2 / 16) (by omega)
    have e3 := b64Val_b64Char (b2 % 16 * 4) (by omega)
    have p3 := b64Char_ne_pad (b2 % 16 * 4) (by omega)
    simp only [b64encodeBytes, b64decodeBytes, e1, e2]
    rw [if_neg (by simp [p3]), if_pos (by simp)]
    simp only [e3]
    congr 1
    have q1 : (b1 / 4) * 4 + (b1 % 4 * 16 + b2 / 16) / 16 = b1 := by omega
    have q2 : (b1 % 4 * 16 + b2 / 16) % 16 * 16 + (b2 % 16 * 4) / 4 = b2 := by omega
    rw [q1, q2]
  | b1 :: b2 :: b3 :: rest, h => by
    have hb1 : b1 < 256 := h b1 (by simp)
    have hb2 : b2 < 256 := h b2 (by simp)
    have hb3 : b3 < 256 := h b3 (by simp)
    have e1 := b64Val_b64Char (b1 / 4) (by omega)
    have e2 := b64Val_b64Char (b1 % 4 * 16 + b2 / 16) (by omega)
    have e3 := b64Val_b64Char (b2 % 16 * 4 + b3 / 64) (by omega)
    have e4 := b64Val_b64Char (b3 % 64) (by omega)
    have p3 := b64Char_ne_pad (b2 % 16 * 4 + b3 / 64) (by omega)
    have p4 := b64Char_ne_pad (b3 % 64) (by omega)
    have ih := b64_roundtrip rest (fun b hb => h b (by simp [hb]))
    simp only [b64encodeBytes, b64decodeBytes, e1, e2]
    rw [if_neg (by simp [p3]), if_neg (by simp [p4])]
    simp only [e3, e4, ih]
    congr 1
    have q1 : (b1 / 4) * 4 + (b1 % 4 * 16 + b2 / 16) / 16 = b1 := by omega
    have q2 : (b1 % 4 * 16 + b2 / 16) % 16 * 16 + (b2 % 16 * 4 + b3 / 64) / 4 = b2 := by omega
    have q3 : (b2 % 16 * 4 + b3 / 64) % 4 * 64 + b3 % 64 = b3 := by omega
    rw [q1, q2, q3]

end Cursor

namespace Cursor

/-- UTF-8 encoding of an all-ASCII character list is the list of scalar
values. -/
theorem utf8Encode_ascii : ∀ l : List Char, (∀ c ∈ l, c.toNat < 128) →
    utf8Encode l = l.map Char.toNat
  | [], _ => rfl
  | c :: cs, h => by
    have hc : c.toNat < 128 := h c (by simp)
    have ih := utf8Encode_ascii cs (fun x hx => h x (by simp [hx]))
    simp only [utf8Encode, utf8Char, hc, if_pos, List.map_cons, ih]
    rfl

/-- UTF-8 decoding inverts encoding on all-ASCII character lists. -/
theorem utf8Decode_ascii : ∀ l : List Char, (∀ c ∈ l, c.toNat < 128) →
    utf8Decode (l.map Char.toNat) = some l
  | [], _ => rfl
  | c :: cs, h => by
    have hc : c.toNat < 128 := h c (by simp)
    have ih := utf8Decode_ascii cs (fun x hx => h x (by simp [hx]))
    rw [List.map_cons]
    simp only [utf8Decode]
    rw [if_pos hc, ih]
    simp [Char.ofNat_toNat]

/-- The characters of a `\uXXXX` group are ASCII. -/
theorem hexDig_ascii {d : Nat} (h : d < 16) : (hexDig d).toNat < 128 := by
  interval_cases d <;> decide

/-- The six characters of a `\uXXXX` escape group are ASCII. -/
theorem hexGroup_ascii (n : Nat) : ∀ x ∈ '\\' :: 'u' :: hex4 n, x.toNat < 128 := by
  intro x hx
  simp only [hex4, List.mem_cons, List.not_mem_nil, or_false] at hx
  rcases hx with rfl | rfl | rfl | rfl | rfl | rfl
  · decide
  · decide
  all_goals exact hexDig_ascii (Nat.mod_lt _ (by omega))

/-- Every character an escape produces is ASCII. -/
theorem escChar_ascii (c : Char) : ∀ x ∈ escChar c, x.toNat < 128 := by
  intro x hx
  rw [escChar] at hx
  split at hx
  · simp only [List.mem_cons, List.not_mem_nil, or_false] at hx
    rcases hx with rfl | rfl <;> decide
  · split at hx
    · simp only [List.mem_cons, List.not_mem_nil, or_false] at hx
      rcases hx with rfl | rfl <;> decide
    · split at hx
      · simp only [List.mem_cons, List.not_mem_nil, or_false] at hx
        rcases hx with rfl | rfl <;> decide
      · split at hx
        · simp only [List.mem_cons, List.not_mem_nil, or_false] at hx
          rcases hx with rfl | rfl <;> decide
        · split at hx
          · simp only [List.mem_cons, List.not_mem_nil, or_false] at hx
            rcases hx with rfl | rfl <;> decide
          · split at hx
            · simp only [List.mem_cons, List.not_mem_nil, or_false] at hx
              rcases hx with rfl | rfl <;> decide
            · split at hx
              · simp only [List.mem_cons, List.not_mem_nil, or_false] at hx
                rcases hx with rfl | rfl <;> decide
              · split at hx
                · rename_i hrange
                  simp only [List.mem_cons, List.not_mem_nil, or_false] at hx
                  subst hx
                  simp only [Bool.and_eq_true, decide_eq_true_eq] at hrange
                  omega
                · split at hx
                  · exact hexGroup_ascii _ x hx
                  · dsimp only at hx
                    rcases List.mem_append.mp hx with hm | hm
                    · exact hexGroup_ascii _ x hm
                    · exact hexGroup_ascii _ x hm

end Cursor

namespace Cursor

/-- Escaped character lists are ASCII. -/
theorem escList_ascii : ∀ l : List Char, ∀ x ∈ escList l, x.toNat < 128
  | [], x, hx => by simp [escList] at hx
  | c :: cs, x, hx => by
    rw [escList] at hx
    rcases List.mem_append.mp hx with h | h
    · exact escChar_ascii c x h
    · exact escList_ascii cs x h

/-- JSON string literals are ASCII. -/
theorem jstrChars_ascii (s : String) : ∀ x ∈ jstrChars s, x.toNat < 128 := by
  intro x hx
  rw [jstrChars] at hx
  rcases List.mem_cons.mp hx with rfl | hx2
  · decide
  · rcases List.mem_append.mp hx2 with h | h
    · exact escList_ascii s.data x h
    · simp only [List.mem_cons, List.not_mem_nil, or_false] at h
      subst h; decide

mutual
/-- Every character `json.dumps` emits for a value is ASCII
(`ensure_ascii=True`). -/
theorem dumpsVal_ascii : ∀ v : JVal, ∀ x ∈ dumpsVal v, x.toNat < 128
  | .jstr s, x, hx => jstrChars_ascii s x hx
  | .jobj .nil, x, hx => by
    simp only [dumpsVal, List.mem_cons, List.not_mem_nil, or_false] at hx
    rcases hx with rfl | rfl <;> decide
  | .jobj (.cons k v rest), x, hx => by
    rw [dumpsVal] at hx
    rcases List.mem_cons.mp hx with rfl | hx2
    · decide
    · rcases List.mem_append.mp hx2 with h | h
      · exact jstrChars_ascii k x h
      · rcases List.mem_cons.mp h with rfl | h2
        · decide
        · rcases List.mem_cons.mp h2 with rfl | h3
          · decide
          · rcases List.mem_append.mp h3 with h4 | h4
            · exact dumpsVal_ascii v x h4
            · rcases List.mem_append.mp h4 with h5 | h5
              · exact dumpsTail_ascii rest x h5
              · simp only [List.mem_cons, List.not_mem_nil, or_false] at h5
                subst h5; decide
/-- Every character `json.dumps` emits for the tail of an object body is
ASCII. -/
theorem dumpsTail_ascii : ∀ o : JObj, ∀ x ∈ dumpsTail o, x.toNat < 128
  | .nil, x, hx => by simp [dumpsTail] at hx
  | .cons k v rest, x, hx => by
    rw [dumpsTail] at hx
    rcases List.mem_cons.mp hx with rfl | hx2
    · decide
    · rcases List.mem_cons.mp hx2 with rfl | hx3
      · decide
      · rcases List.mem_append.mp hx3 with h | h
        · exact jstrChars_ascii k x h
        · rcases List.mem_cons.mp h with rfl | h2
          · decide
          · rcases List.mem_cons.mp h2 with rfl | h3
            · decide
            · rcases List.mem_append.mp h3 with h4 | h4
              · exact dumpsVal_ascii v x h4
              · exact dumpsTail_ascii rest x h4
end

/-- Node counts are positive. -/
theorem sizeV_pos : ∀ v : JVal, 1 ≤ sizeV v := by
  intro v
  cases v <;> simp [sizeV]

/-- Entry counts are positive. -/
theorem sizeO_pos : ∀ o : JObj, 1 ≤ sizeO o := by
  intro o
  cases o <;> simp [sizeO]

mutual
/-- The node count of a value is bounded by its printed length. -/
theorem sizeV_le_length : ∀ v : JVal, sizeV v ≤ (dumpsVal v).length
  | .jstr s => by simp [sizeV, dumpsVal, jstrChars]
  | .jobj .nil => by simp [sizeV, sizeO, dumpsVal]
  | .jobj (.cons k v rest) => by
    have h1 := sizeV_le_length v
    have h2 := sizeO_le_length rest
    simp only [sizeV, sizeO, dumpsVal, List.length_cons, List.length_append, jstrChars]
    omega
/-- The entry count of an object tail is bounded by its printed length
plus one. -/
theorem sizeO_le_length : ∀ o : JObj, sizeO o ≤ (dumpsTail o).length + 1
  | .nil => by simp [sizeO, dumpsTail]
  | .cons k v rest => by
    have h1 := sizeV_le_length v
    have h2 := sizeO_le_length rest
    simp only [sizeO, dumpsTail, List.length_cons, List.length_append, jstrChars]
    omega
end

end Cursor

namespace Cursor

/-- Hex digits decode to their value. -/
theorem hexVal_hexDig : ∀ d < 16, hexVal (hexDig d) = some d := by decide

/-- A `%04x`-rendered value below 2^16 parses back to itself. -/
theorem hex4Val_hex4 {n : Nat} (h : n < 65536) :
    hex4Val (hexDig (n / 4096 % 16)) (hexDig (n / 256 % 16))
      (hexDig (n / 16 % 16)) (hexDig (n % 16)) = some n := by
  have e1 := hexVal_hexDig (n / 4096 % 16) (Nat.mod_lt _ (by omega))
  have e2 := hexVal_hexDig (n / 256 % 16) (Nat.mod_lt _ (by omega))
  have e3 := hexVal_hexDig (n / 16 % 16) (Nat.mod_lt _ (by omega))
  have e4 := hexVal_hexDig (n % 16) (Nat.mod_lt _ (by omega))
  rw [hex4Val, e1, e2, e3, e4]
  dsimp only
  congr 1
  omega

set_option maxRecDepth 1024 in
/-- Parsing undoes the escaping of a single character. -/
theorem escChar_parse (c : Char) (acc rest : List Char) :
    parseStrBody acc (escChar c ++ rest) = parseStrBody (c :: acc) rest := by
  rw [escChar]
  split
  · rename_i h; subst h
    simp [parseStrBody, parseEsc]
  · split
    · rename_i h1 h; subst h
      simp [parseStrBody, parseEsc]
    · split
      · rename_i h1 h2 h; subst h
        simp [parseStrBody, parseEsc]
      · split
        · rename_i h1 h2 h3 h; subst h
          simp [parseStrBody, parseEsc]
        · split
          · rename_i h1 h2 h3 h4 h; subst h
            simp [parseStrBody, parseEsc]
          · split
            · rename_i h1 h2 h3 h4 h5 h; subst h
              simp [parseStrBody, parseEsc]
            · split
              · rename_i h1 h2 h3 h4 h5 h6 h; subst h
                simp [parseStrBody, parseEsc]
              · split
                · rename_i h1 h2 h3 h4 h5 h6 h7 hp
                  simp only [Bool.and_eq_true, decide_eq_true_eq] at hp
                  simp only [List.cons_append, List.nil_append]
                  rw [parseStrBody]
                  rw [if_neg h2, if_neg h1, if_neg (by omega)]
                · split
                  · rename_i h1 h2 h3 h4 h5 h6 h7 hp hsmall
                    have hvalid := char_toNat_valid c
                    have hx4 := hex4Val_hex4 (show c.toNat < 65536 from hsmall)
                    have hb1 : (55296 ≤ c.toNat && c.toNat ≤ 56319) = false := by
                      rcases hvalid with h | ⟨ha, hb⟩ <;> (simp; omega)
                    have hb2 : (56320 ≤ c.toNat && c.toNat ≤ 57343) = false := by
                      rcases hvalid with h | ⟨ha, hb⟩ <;> (simp; omega)
                    simp only [hex4, List.cons_append, List.nil_append]
                    rw [parseStrBody]
                    rw [if_neg (by decide), if_pos rfl]
                    rw [parseEsc, hx4]
                    dsimp only
                    rw [hb1, hb2]
                    simp only [Bool.false_eq_true, if_false]
                    rw [Char.ofNat_toNat]
                  · rename_i h1 h2 h3 h4 h5 h6 h7 hp hbig
                    have hvalid := char_toNat_valid c
                    have hge : 65536 ≤ c.toNat := by omega
                    have hlt : c.toNat < 1114112 := by
                      rcases hvalid with h | ⟨ha, hb⟩ <;> omega
                    have hx4a := hex4Val_hex4
                      (show 55296 + (c.toNat - 65536) / 1024 < 65536 by omega)
                    have hx4b := hex4Val_hex4
                      (show 56320 + (c.toNat - 65536) % 1024 < 65536 by omega)
                    have hbhi : (55296 ≤ 55296 + (c.toNat - 65536) / 1024 &&
                        55296 + (c.toNat - 65536) / 1024 ≤ 56319) = true := by
                      simp
                      omega
                    have hblo : (56320 ≤ 56320 + (c.toNat - 65536) % 1024 &&
                        56320 + (c.toNat - 65536) % 1024 ≤ 57343) = true := by
                      simp
                      omega
                    simp only [hex4, List.cons_append, List.append_assoc, List.nil_append]
                    rw [parseStrBody]
                    rw [if_neg (by decide), if_pos rfl]
                    rw [parseEsc, hx4a]
                    dsimp only
                    rw [if_pos hbhi, parseLowSurrogate, hx4b]
                    dsimp only
                    rw [if_pos hblo]
                    rw [show (65536 + (55296 + (c.toNat - 65536) / 1024 - 55296) * 1024 +
                        (56320 + (c.toNat - 65536) % 1024 - 56320)) = c.toNat by omega,
                      Char.ofNat_toNat]

end Cursor

namespace Cursor

/-- Parsing undoes the escaping of a whole character list, up to the
closing quote. -/
theorem escList_parse : ∀ (l acc rest : List Char),
    parseStrBody acc (escList l ++ ('"' :: rest)) =
      some (⟨acc.reverse ++ l⟩, rest)
  | [], acc, rest => by
    rw [escList, List.nil_append, parseStrBody]
    simp
  | c :: cs, acc, rest => by
    rw [escList, List.append_assoc, escChar_parse, escList_parse cs (c :: acc) rest]
    simp

/-- A dumped string literal body parses back to the string. -/
theorem jstr_parse (s : String) (rest : List Char) :
    parseStrBody [] (escList s.data ++ ('"' :: rest)) = some (s, rest) := by
  rw [escList_parse]
  rfl

/-- `skipWs` ignores a leading space. -/
theorem skipWs_space (cs : List Char) : skipWs (' ' :: cs) = skipWs cs := rfl

/-- `skipWs` is the identity on a leading quote. -/
theorem skipWs_quote (cs : List Char) : skipWs ('"' :: cs) = '"' :: cs := rfl

/-- `skipWs` is the identity on a leading opening brace. -/
theorem skipWs_lbrace (cs : List Char) : skipWs ('{' :: cs) = '{' :: cs := rfl

/-- `skipWs` is the identity on a leading closing brace. -/
theorem skipWs_rbrace (cs : List Char) : skipWs ('}' :: cs) = '}' :: cs := rfl

/-- `skipWs` is the identity on a leading comma. -/
theorem skipWs_comma (cs : List Char) : skipWs (',' :: cs) = ',' :: cs := rfl

/-- `skipWs` is the identity on a leading colon. -/
theorem skipWs_colon (cs : List Char) : skipWs (':' :: cs) = ':' :: cs := rfl

/-- A leading space does not change a fuelled `parseVal` run. -/
theorem parseVal_space (f : Nat) (hf : 1 ≤ f) (cs : List Char) :
    parseVal f (' ' :: cs) = parseVal f cs := by
  cases f with
  | zero => omega
  | succ g =>
    rw [parseVal, parseVal, skipWs_space]

end Cursor

namespace Cursor

/-- One-step reduction of the fuelled parser at a string literal. -/
theorem parseVal_quote (fuel : Nat) (X : List Char) :
    parseVal (fuel + 1) ('"' :: X) =
      (parseStrBody [] X).map (fun p => (JVal.jstr p.1, p.2)) := rfl

/-- One-step reduction of the fuelled parser at an empty object. -/
theorem parseVal_obj_end (fuel : Nat) (X : List Char) :
    parseVal (fuel + 1) ('{' :: ('}' :: X)) = some (.jobj .nil, X) := rfl

/-- One-step reduction of the fuelled parser at a non-empty object. -/
theorem parseVal_obj_key (fuel : Nat) (X : List Char) :
    parseVal (fuel + 1) ('{' :: ('"' :: X)) =
      (parseMembers fuel ('"' :: X)).map (fun p => (JVal.jobj p.1, p.2)) := rfl

/-- One-step reduction of the member parser at a key literal. -/
theorem parseMembers_key (fuel : Nat) (X : List Char) :
    parseMembers (fuel + 1) ('"' :: X) =
      parseMemberKey (parseVal fuel) (parseMembers fuel) (parseStrBody [] X) := rfl

/-- One-step reduction of the key continuation at a scanned key followed
by a colon. -/
theorem parseMemberKey_colon (pv : List Char → Option (JVal × List Char))
    (pm : List Char → Option (JObj × List Char)) (k : String) (rest2 : List Char) :
    parseMemberKey pv pm (some (k, ':' :: rest2)) = parseMemberVal pm k (pv rest2) := rfl

/-- One-step reduction of the value continuation at a comma. -/
theorem parseMemberVal_comma (pm : List Char → Option (JObj × List Char))
    (k : String) (v : JVal) (rest4 : List Char) :
    parseMemberVal pm k (some (v, ',' :: rest4)) =
      (pm (skipWs rest4)).map (fun p => (JObj.cons k v p.1, p.2)) := rfl

/-- One-step reduction of the value continuation at the closing brace. -/
theorem parseMemberVal_done (pm : List Char → Option (JObj × List Char))
    (k : String) (v : JVal) (rest4 : List Char) :
    parseMemberVal pm k (some (v, '}' :: rest4)) = some (.cons k v .nil, rest4) := rfl

/-- One-step reduction of the base64 decode stage on success. -/
theorem decodeFromBytes_some (bytes : List Nat) :
    decodeFromBytes (some bytes) = decodeFromChars (utf8Decode bytes) := rfl

/-- One-step reduction of the UTF-8 decode stage on success. -/
theorem decodeFromChars_some (chars : List Char) :
    decodeFromChars (some chars) = decodeParsed (parseVal (chars.length + 1) chars) := rfl

/-- The fuelled parser inverts `json.dumps`: with enough fuel, a dumped
value (followed by anything) parses back to itself, and a dumped
non-empty member list followed by the closing brace parses back to its
entries. -/
theorem parse_roundtrip : ∀ fuel : Nat,
    (∀ (v : JVal) (rest : List Char), sizeV v ≤ fuel →
      parseVal fuel (dumpsVal v ++ rest) = some (v, rest)) ∧
    (∀ (o : JObj) (k : String) (v : JVal) (rest : List Char),
      sizeV v + sizeO o + 1 ≤ fuel →
      parseMembers fuel
        (jstrChars k ++ (':' :: ' ' :: (dumpsVal v ++ (dumpsTail o ++ ('}' :: rest))))) =
        some (.cons k v o, rest)) := by
  intro fuel
  induction fuel with
  | zero =>
    constructor
    · intro v rest h
      have := sizeV_pos v
      omega
    · intro o k v rest h
      have := sizeV_pos v
      omega
  | succ fuel ih =>
    obtain ⟨ihV, ihM⟩ := ih
    constructor
    · intro v rest h
      cases v with
      | jstr s =>
        rw [dumpsVal, jstrChars]
        simp only [List.cons_append, List.append_assoc, List.nil_append]
        rw [parseVal_quote, jstr_parse]
        rfl
      | jobj o =>
        cases o with
        | nil =>
          exact parseVal_obj_end fuel rest
        | cons k v2 o2 =>
          rw [dumpsVal, jstrChars]
          simp only [List.cons_append, List.append_assoc, List.nil_append]
          rw [parseVal_obj_key]
          have hsz : sizeV v2 + sizeO o2 + 1 ≤ fuel := by
            simp only [sizeV, sizeO] at h
            omega
          have hm := ihM o2 k v2 rest hsz
          rw [jstrChars] at hm
          simp only [List.cons_append, List.append_assoc, List.nil_append] at hm
          rw [hm]
          rfl
    · intro o k v rest h
      rw [jstrChars]
      simp only [List.cons_append, List.append_assoc, List.nil_append]
      rw [parseMembers_key, jstr_parse, parseMemberKey_colon]
      have hf : 1 ≤ fuel := by
        have := sizeV_pos v
        have := sizeO_pos o
        omega
      rw [parseVal_space fuel hf]
      rw [ihV v (dumpsTail o ++ ('}' :: rest)) (by
        have := sizeO_pos o
        omega)]
      cases o with
      | nil =>
        rw [dumpsTail, List.nil_append, parseMemberVal_done]
      | cons k2 v2 o2 =>
        rw [dumpsTail]
        simp only [List.cons_append, List.append_assoc, List.nil_append]
        rw [parseMemberVal_comma, skipWs_space, jstrChars]
        simp only [List.cons_append, List.append_assoc, List.nil_append]
        have hsz2 : sizeV v2 + sizeO o2 + 1 ≤ fuel := by
          simp only [sizeO] at h
          have := sizeV_pos v
          omega
        have hm2 := ihM o2 k2 v2 rest hsz2
        rw [jstrChars] at hm2
        simp only [List.cons_append, List.append_assoc, List.nil_append] at hm2
        rw [skipWs_quote, hm2]
        rfl

end Cursor

/-- Claim C9: decoding the cursor produced by encoding a pagination key
reproduces the key exactly, for every key shape built from strings and
nested maps (`decode_cursor (encode_cursor k) = k`), through the whole
`json.dumps` / UTF-8 / base64 pipeline and back. -/
theorem c9_cursor_roundtrip (v : Cursor.JVal) :
    Cursor.decode_cursor (Cursor.encode_cursor v) = some v := by
  have hascii := Cursor.dumpsVal_ascii v
  have hbytes : Cursor.utf8Encode (Cursor.dumpsVal v) = (Cursor.dumpsVal v).map Char.toNat :=
    Cursor.utf8Encode_ascii _ hascii
  have hlt : ∀ b ∈ Cursor.utf8Encode (Cursor.dumpsVal v), b < 256 := by
    rw [hbytes]
    intro b hb
    rcases List.mem_map.mp hb with ⟨c, hc, rfl⟩
    have := hascii c hc
    omega
  rw [Cursor.encode_cursor, Cursor.decode_cursor]
  have hdata : (⟨Cursor.b64encodeBytes (Cursor.utf8Encode (Cursor.dumpsVal v))⟩ : String).data
      = Cursor.b64encodeBytes (Cursor.utf8Encode (Cursor.dumpsVal v)) := rfl
  rw [hdata, Cursor.b64_roundtrip _ hlt, Cursor.decodeFromBytes_some, hbytes,
    Cursor.utf8Decode_ascii _ hascii, Cursor.decodeFromChars_some]
  have hparse := (Cursor.parse_roundtrip ((Cursor.dumpsVal v).length + 1)).1 v []
    (by have := Cursor.sizeV_le_length v; omega)
  rw [List.append_nil] at hparse
  rw [hparse]
  rfl
